import Mathlib

/-!
# packet_injection: IPv4 / TCP header construction (`src/packets.c`)

A shallow embedding of the header library in `src/packets.c` and the properties
of its field setters, checksum routines and byte-order converters.

Conventions of the embedding.

* A C object of type `uintN_t` is a natural number below `2 ^ N`.  Every place
  where C converts a wider value to `uintN_t` (an initialisation, an assignment,
  an argument passed to a narrower parameter) is written as an explicit
  `% 2 ^ N`.  Operands narrower than `int` are promoted to the 32-bit `int`
  before arithmetic, so intermediate results are taken over the integers and
  only truncated where the source stores them.
* Widening conversions (`(uint16_t) x` for a `uint8_t x`, integer promotion)
  preserve the value and are not written.
* A function `void f(T* this, ...)` that updates `*this` becomes a function from
  the old header value to the new one.  The definitions below are the function
  bodies past the `this == NULL` guard, i.e. the behaviour on a present header.
-/

namespace PacketInjection

/-! ## Data model -/

/-- Modelled from the spec: the declaration of `IP_Header_t` lives in `packets.h`,
which is not part of the sources.  The fields, their widths and their declared order
follow the table of the IPv4 header in the data model (bytes 0 to 19) and the
member names used by `packets.c`.  The comment after each field is its C type. -/
structure IP_Header_t where
  version_n_IHL : Nat    -- uint8_t
  type_of_service : Nat  -- uint8_t
  total_length : Nat     -- uint16_t
  id : Nat               -- uint16_t
  flags_n_offset : Nat   -- uint16_t
  time_to_live : Nat     -- uint8_t
  protocol : Nat         -- uint8_t
  checksum : Nat         -- uint16_t
  src_address : Nat      -- uint32_t
  dst_address : Nat      -- uint32_t
  deriving DecidableEq, Repr

/-- Modelled from the spec: the declaration of `TCP_Header_t` lives in `packets.h`,
which is not part of the sources.  The fields, their widths and their declared order
follow the table of the TCP header in the data model (bytes 0 to 19) and the member
names used by `packets.c`.  The comment after each field is its C type. -/
structure TCP_Header_t where
  src_port : Nat           -- uint16_t
  dst_port : Nat           -- uint16_t
  sequence_num : Nat       -- uint32_t
  ack_num : Nat            -- uint32_t
  offset_n_reserved : Nat  -- uint8_t
  control_bits : Nat       -- uint8_t
  window : Nat             -- uint16_t
  checksum : Nat           -- uint16_t
  urgent_ptr : Nat         -- uint16_t
  deriving DecidableEq, Repr

/-- Every field of an IP header holds a value of its C type. -/
def IP_Header_t.wf (h : IP_Header_t) : Prop :=
  h.version_n_IHL < 2 ^ 8 ∧ h.type_of_service < 2 ^ 8 ∧ h.total_length < 2 ^ 16 ∧
  h.id < 2 ^ 16 ∧ h.flags_n_offset < 2 ^ 16 ∧ h.time_to_live < 2 ^ 8 ∧
  h.protocol < 2 ^ 8 ∧ h.checksum < 2 ^ 16 ∧ h.src_address < 2 ^ 32 ∧
  h.dst_address < 2 ^ 32

instance (h : IP_Header_t) : Decidable h.wf := by
  unfold IP_Header_t.wf; infer_instance

/-- Every field of a TCP header holds a value of its C type. -/
def TCP_Header_t.wf (t : TCP_Header_t) : Prop :=
  t.src_port < 2 ^ 16 ∧ t.dst_port < 2 ^ 16 ∧ t.sequence_num < 2 ^ 32 ∧
  t.ack_num < 2 ^ 32 ∧ t.offset_n_reserved < 2 ^ 8 ∧ t.control_bits < 2 ^ 8 ∧
  t.window < 2 ^ 16 ∧ t.checksum < 2 ^ 16 ∧ t.urgent_ptr < 2 ^ 16

instance (t : TCP_Header_t) : Decidable t.wf := by
  unfold TCP_Header_t.wf; infer_instance

/-! ## Checksum engine -/

/-- `uint16_t ones_complement_add(uint16_t a, uint16_t b)` (packets.c:421).
`a + b` is computed in `int` and stored in the `uint32_t sum`; the folded value is
stored back in `sum`; the return converts it to `uint16_t`. -/
def ones_complement_add (a b : Nat) : Nat :=
  let sum := (a + b) % 2 ^ 32
  let sum := ((sum &&& 0xFFFF) + (sum >>> 16)) % 2 ^ 32
  sum % 2 ^ 16

/-! ## IP header: field setters -/

/-- `void IP_set_version(IP_Header_t* this, uint8_t version)` (packets.c:13). -/
def IP_set_version (this : IP_Header_t) (version : Nat) : IP_Header_t :=
  let mask := 0x0F
  let masked_version_n_IHL := (this.version_n_IHL &&& mask) % 2 ^ 8
  let shifted_version := (version <<< 4) % 2 ^ 8
  { this with version_n_IHL := (masked_version_n_IHL ||| shifted_version) % 2 ^ 8 }

/-- `void IP_set_IHL(IP_Header_t* this, uint8_t IHL)` (packets.c:32). -/
def IP_set_IHL (this : IP_Header_t) (IHL : Nat) : IP_Header_t :=
  let mask := 0xF0
  let masked_version_n_IHL := (this.version_n_IHL &&& mask) % 2 ^ 8
  let mask := 0x0F
  let formatted_IHL := (IHL &&& mask) % 2 ^ 8
  { this with version_n_IHL := (masked_version_n_IHL ||| formatted_IHL) % 2 ^ 8 }

/-- `void IP_set_type_of_service(IP_Header_t* this, uint8_t type_of_service)`
(packets.c:51). -/
def IP_set_type_of_service (this : IP_Header_t) (type_of_service : Nat) : IP_Header_t :=
  { this with type_of_service := type_of_service }

/-- `void IP_set_total_length(IP_Header_t* this, uint16_t total_length)` (packets.c:67). -/
def IP_set_total_length (this : IP_Header_t) (total_length : Nat) : IP_Header_t :=
  { this with total_length := total_length }

/-- `void IP_set_id(IP_Header_t* this, uint16_t id)` (packets.c:82). -/
def IP_set_id (this : IP_Header_t) (id : Nat) : IP_Header_t :=
  { this with id := id }

/-- `void IP_set_flags(IP_Header_t* this, uint8_t flags)` (packets.c:99).
`flags << 13` is computed in `int` (at most `255 * 2 ^ 13`, no overflow) and truncated
by the initialisation of the `uint16_t shifted_flags`. -/
def IP_set_flags (this : IP_Header_t) (flags : Nat) : IP_Header_t :=
  let mask := 0x1FFF
  let masked_flags_n_offset := (this.flags_n_offset &&& mask) % 2 ^ 16
  let shifted_flags := (flags <<< 13) % 2 ^ 16
  { this with flags_n_offset := (masked_flags_n_offset ||| shifted_flags) % 2 ^ 16 }

/-- `void IP_set_offset(IP_Header_t* this, uint16_t offset)` (packets.c:117).
The first mask is the source's constant `0xE0FF`. -/
def IP_set_offset (this : IP_Header_t) (offset : Nat) : IP_Header_t :=
  let mask := 0xE0FF
  let masked_flags_n_offset := (this.flags_n_offset &&& mask) % 2 ^ 16
  let mask := 0x1FFF
  let formatted_offset := (offset &&& mask) % 2 ^ 16
  { this with flags_n_offset := (masked_flags_n_offset ||| formatted_offset) % 2 ^ 16 }

/-- `void IP_set_time_to_live(IP_Header_t* this, uint8_t time_to_live)` (packets.c:136). -/
def IP_set_time_to_live (this : IP_Header_t) (time_to_live : Nat) : IP_Header_t :=
  { this with time_to_live := time_to_live }

/-- `void IP_set_protocol(IP_Header_t* this, uint8_t protocol)` (packets.c:152). -/
def IP_set_protocol (this : IP_Header_t) (protocol : Nat) : IP_Header_t :=
  { this with protocol := protocol }

/-- `void IP_set_checksum(IP_Header_t* this, uint16_t checksum)` (packets.c:167). -/
def IP_set_checksum (this : IP_Header_t) (checksum : Nat) : IP_Header_t :=
  { this with checksum := checksum }

/-- `void IP_set_src_address(IP_Header_t* this, uint32_t src_address)` (packets.c:182). -/
def IP_set_src_address (this : IP_Header_t) (src_address : Nat) : IP_Header_t :=
  { this with src_address := src_address }

/-- `void IP_set_dst_address(IP_Header_t* this, uint32_t dst_address)` (packets.c:200). -/
def IP_set_dst_address (this : IP_Header_t) (dst_address : Nat) : IP_Header_t :=
  { this with dst_address := dst_address }

/-! ## IP header: checksum -/

/-- `void IP_update_checksum(IP_Header_t* this)` (packets.c:217).
`ip_checksum` is a `uint16_t`.  In `~ip_checksum` the operand is promoted to `int`, whose
complement is `-ip_checksum - 1`; the assignment to the `uint16_t` field reduces that
value modulo `2 ^ 16`. -/
def IP_update_checksum (this : IP_Header_t) : IP_Header_t :=
  let ip_checksum := 0
  -- version, IHL, and type of service
  let ip_checksum := ones_complement_add ip_checksum
    (((this.version_n_IHL <<< 8) ||| this.type_of_service) % 2 ^ 16)
  -- total length
  let ip_checksum := ones_complement_add ip_checksum this.total_length
  -- id
  let ip_checksum := ones_complement_add ip_checksum this.id
  -- flags and offset
  let ip_checksum := ones_complement_add ip_checksum this.flags_n_offset
  -- time to live and protocol
  let ip_checksum := ones_complement_add ip_checksum
    (((this.time_to_live <<< 8) ||| this.protocol) % 2 ^ 16)
  -- source address
  let src_address_lower := (this.src_address &&& 0xFFFF) % 2 ^ 16
  let src_address_upper := ((this.src_address >>> 16) &&& 0xFFFF) % 2 ^ 16
  let ip_checksum := ones_complement_add ip_checksum src_address_lower
  let ip_checksum := ones_complement_add ip_checksum src_address_upper
  -- destination address
  let dst_address_lower := (this.dst_address &&& 0xFFFF) % 2 ^ 16
  let dst_address_upper := ((this.dst_address >>> 16) &&& 0xFFFF) % 2 ^ 16
  let ip_checksum := ones_complement_add ip_checksum dst_address_lower
  let ip_checksum := ones_complement_add ip_checksum dst_address_upper
  -- set one's complement
  { this with checksum := ((-(ip_checksum : Int) - 1) % 2 ^ 16).toNat }

/-! ## TCP header: field setters -/

/-- `void TCP_set_src_port(TCP_Header_t* this, uint16_t src_port)` (packets.c:259). -/
def TCP_set_src_port (this : TCP_Header_t) (src_port : Nat) : TCP_Header_t :=
  { this with src_port := src_port }

/-- `void TCP_set_dst_port(TCP_Header_t* this, uint16_t dst_port)` (packets.c:274). -/
def TCP_set_dst_port (this : TCP_Header_t) (dst_port : Nat) : TCP_Header_t :=
  { this with dst_port := dst_port }

/-- `void TCP_set_sequence_num(TCP_Header_t* this, uint32_t seq_num)` (packets.c:289). -/
def TCP_set_sequence_num (this : TCP_Header_t) (seq_num : Nat) : TCP_Header_t :=
  { this with sequence_num := seq_num }

/-- `void TCP_set_ack_num(TCP_Header_t* this, uint32_t ack_num)` (packets.c:305). -/
def TCP_set_ack_num (this : TCP_Header_t) (ack_num : Nat) : TCP_Header_t :=
  { this with ack_num := ack_num }

/-- `void TCP_set_offset(TCP_Header_t* this, uint8_t offset)` (packets.c:320).
`offset << 4` is computed in `int` and truncated by the assignment back to the
`uint8_t` parameter. -/
def TCP_set_offset (this : TCP_Header_t) (offset : Nat) : TCP_Header_t :=
  let offset := (offset <<< 4) % 2 ^ 8
  { this with offset_n_reserved := (this.offset_n_reserved ||| offset) % 2 ^ 8 }

/-- `void TCP_set_reserved(TCP_Header_t* this, uint8_t reserved)` (packets.c:337). -/
def TCP_set_reserved (this : TCP_Header_t) (reserved : Nat) : TCP_Header_t :=
  let mask := 0xF0
  let masked_offset_n_reserved := (this.offset_n_reserved &&& mask) % 2 ^ 8
  { this with offset_n_reserved := (masked_offset_n_reserved ||| reserved) % 2 ^ 8 }

/-- `void TCP_set_control_bits(TCP_Header_t* this, uint8_t flags)` (packets.c:358). -/
def TCP_set_control_bits (this : TCP_Header_t) (flags : Nat) : TCP_Header_t :=
  { this with control_bits := flags }

/-- `void TCP_set_window(TCP_Header_t* this, uint16_t window)` (packets.c:374). -/
def TCP_set_window (this : TCP_Header_t) (window : Nat) : TCP_Header_t :=
  { this with window := window }

/-- `void TCP_set_checksum(TCP_Header_t* this, uint16_t checksum)` (packets.c:389). -/
def TCP_set_checksum (this : TCP_Header_t) (checksum : Nat) : TCP_Header_t :=
  { this with checksum := checksum }

/-- `void TCP_set_ugent_ptr(TCP_Header_t* this, uint16_t urgent_ptr)` (packets.c:405). -/
def TCP_set_ugent_ptr (this : TCP_Header_t) (urgent_ptr : Nat) : TCP_Header_t :=
  { this with urgent_ptr := urgent_ptr }

/-! ## TCP header: checksum -/

/-- `void TCP_update_checksum(TCP_Header_t* this, IP_Header_t* IP_segment)`
(packets.c:435).  Only `*this` is written; the result is its new value.
`tcp_checksum` is a `uint32_t`: passing it to the `uint16_t` parameter of
`ones_complement_add` reduces it modulo `2 ^ 16`, `~tcp_checksum` is the 32-bit
complement `2 ^ 32 - 1 - tcp_checksum`, and the assignment to the `uint16_t` field
reduces that modulo `2 ^ 16`. -/
def TCP_update_checksum (this : TCP_Header_t) (IP_segment : IP_Header_t) : TCP_Header_t :=
  let TCP_LENGTH := 20
  let tcp_checksum := 0
  -- protocol
  let tcp_checksum := ones_complement_add (tcp_checksum % 2 ^ 16) IP_segment.protocol
  -- source address
  let src_address_lower := (IP_segment.src_address &&& 0xFFFF) % 2 ^ 16
  let src_address_upper := ((IP_segment.src_address >>> 16) &&& 0xFFFF) % 2 ^ 16
  let tcp_checksum := ones_complement_add (tcp_checksum % 2 ^ 16) src_address_lower
  let tcp_checksum := ones_complement_add (tcp_checksum % 2 ^ 16) src_address_upper
  -- destination address
  let dst_address_lower := (IP_segment.dst_address &&& 0xFFFF) % 2 ^ 16
  let dst_address_upper := (IP_segment.dst_address >>> 16) % 2 ^ 16
  let tcp_checksum := ones_complement_add (tcp_checksum % 2 ^ 16) dst_address_lower
  let tcp_checksum := ones_complement_add (tcp_checksum % 2 ^ 16) dst_address_upper
  -- TCP Length
  let tcp_checksum := ones_complement_add (tcp_checksum % 2 ^ 16) TCP_LENGTH
  -- source port
  let tcp_checksum := ones_complement_add (tcp_checksum % 2 ^ 16) this.src_port
  -- destination port
  let tcp_checksum := ones_complement_add (tcp_checksum % 2 ^ 16) this.dst_port
  -- sequence number
  let seq_lower := (this.sequence_num &&& 0xFFFF) % 2 ^ 16
  let seq_upper := ((this.sequence_num >>> 16) &&& 0xFFFF) % 2 ^ 16
  let tcp_checksum := ones_complement_add (tcp_checksum % 2 ^ 16) seq_lower
  let tcp_checksum := ones_complement_add (tcp_checksum % 2 ^ 16) seq_upper
  -- acknowledgement number
  let ack_lower := (this.ack_num &&& 0xFFFF) % 2 ^ 16
  let ack_upper := ((this.ack_num >>> 16) &&& 0xFFFF) % 2 ^ 16
  let tcp_checksum := ones_complement_add (tcp_checksum % 2 ^ 16) ack_lower
  let tcp_checksum := ones_complement_add (tcp_checksum % 2 ^ 16) ack_upper
  -- offset, reserved, and control bits
  let tcp_checksum := ones_complement_add (tcp_checksum % 2 ^ 16)
    (((this.offset_n_reserved <<< 8) ||| this.control_bits) % 2 ^ 16)
  -- window
  let tcp_checksum := ones_complement_add (tcp_checksum % 2 ^ 16) this.window
  -- urgent pointer
  let tcp_checksum := ones_complement_add (tcp_checksum % 2 ^ 16) this.urgent_ptr
  -- set one's complement
  { this with checksum := (2 ^ 32 - 1 - tcp_checksum) % 2 ^ 16 }

/-! ## Byte-order converter -/

/-- Modelled from the spec: `htons` is the C library's host-to-network conversion, not
defined in this repository.  On a little-endian host it reverses the two bytes of a
16-bit value. -/
def htons (x : Nat) : Nat :=
  (x % 2 ^ 8) * 2 ^ 8 + x / 2 ^ 8 % 2 ^ 8

/-- Modelled from the spec: `htonl` is the C library's host-to-network conversion, not
defined in this repository.  On a little-endian host it reverses the four bytes of a
32-bit value. -/
def htonl (x : Nat) : Nat :=
  (x % 2 ^ 8) * 2 ^ 24 + (x / 2 ^ 8 % 2 ^ 8) * 2 ^ 16 + (x / 2 ^ 16 % 2 ^ 8) * 2 ^ 8 +
    x / 2 ^ 24 % 2 ^ 8

/-- `void hton_ip(IP_Header_t *ip)` (packets.c:504). -/
def hton_ip (ip : IP_Header_t) : IP_Header_t :=
  let ip := { ip with total_length := htons ip.total_length }
  let ip := { ip with id := htons ip.id }
  let ip := { ip with flags_n_offset := htons ip.flags_n_offset }
  let ip := { ip with checksum := htons ip.checksum }
  let ip := { ip with src_address := htonl ip.src_address }
  { ip with dst_address := htonl ip.dst_address }

/-- `void hton_tcp(TCP_Header_t *tcp)` (packets.c:520). -/
def hton_tcp (tcp : TCP_Header_t) : TCP_Header_t :=
  let tcp := { tcp with src_port := htons tcp.src_port }
  let tcp := { tcp with dst_port := htons tcp.dst_port }
  let tcp := { tcp with sequence_num := htonl tcp.sequence_num }
  let tcp := { tcp with ack_num := htonl tcp.ack_num }
  let tcp := { tcp with window := htons tcp.window }
  let tcp := { tcp with checksum := htons tcp.checksum }
  { tcp with urgent_ptr := htons tcp.urgent_ptr }

/-! ## Checksum validation (the receiver's view) -/

/-- Fold of the checksum engine over a list of 16-bit words, from accumulator 0. -/
def checksum_fold (words : List Nat) : Nat :=
  words.foldl ones_complement_add 0

/-- The ten 16-bit words of an IP header in wire order, as a validator sums them. -/
def IP_words (h : IP_Header_t) : List Nat :=
  [ (h.version_n_IHL <<< 8) ||| h.type_of_service,
    h.total_length,
    h.id,
    h.flags_n_offset,
    (h.time_to_live <<< 8) ||| h.protocol,
    h.checksum,
    (h.src_address >>> 16) &&& 0xFFFF,
    h.src_address &&& 0xFFFF,
    (h.dst_address >>> 16) &&& 0xFFFF,
    h.dst_address &&& 0xFFFF ]

/-- The six pseudo-header words taken from the IP header `p`, followed by the ten words
of the TCP header `t`, as a validator of the TCP checksum sums them. -/
def TCP_words (t : TCP_Header_t) (p : IP_Header_t) : List Nat :=
  [ p.protocol,
    p.src_address &&& 0xFFFF,
    (p.src_address >>> 16) &&& 0xFFFF,
    p.dst_address &&& 0xFFFF,
    (p.dst_address >>> 16) &&& 0xFFFF,
    20,
    t.src_port,
    t.dst_port,
    t.sequence_num &&& 0xFFFF,
    (t.sequence_num >>> 16) &&& 0xFFFF,
    t.ack_num &&& 0xFFFF,
    (t.ack_num >>> 16) &&& 0xFFFF,
    (t.offset_n_reserved <<< 8) ||| t.control_bits,
    t.window,
    t.checksum,
    t.urgent_ptr ]

/-- In-memory bytes of a 16-bit object on a little-endian host. -/
def le_bytes16 (x : Nat) : List Nat :=
  [x % 2 ^ 8, x / 2 ^ 8 % 2 ^ 8]

/-- In-memory bytes of a 32-bit object on a little-endian host. -/
def le_bytes32 (x : Nat) : List Nat :=
  [x % 2 ^ 8, x / 2 ^ 8 % 2 ^ 8, x / 2 ^ 16 % 2 ^ 8, x / 2 ^ 24 % 2 ^ 8]

/-- The 20 bytes of an IP header object on a little-endian host: the fields in declared
order, each multi-byte field least significant byte first.  Every field sits at a
multiple of its size, so there is no padding. -/
def IP_bytes (h : IP_Header_t) : List Nat :=
  [h.version_n_IHL, h.type_of_service] ++ le_bytes16 h.total_length ++ le_bytes16 h.id ++
    le_bytes16 h.flags_n_offset ++ [h.time_to_live, h.protocol] ++ le_bytes16 h.checksum ++
    le_bytes32 h.src_address ++ le_bytes32 h.dst_address

/-- Read a byte string as big-endian 16-bit words (a trailing odd byte is dropped). -/
def be_words : List Nat → List Nat
  | hi :: lo :: rest => (hi * 2 ^ 8 + lo) :: be_words rest
  | _ => []

/-! ## Words summed by the checksum routines -/

/-- The nine words `IP_update_checksum` adds up, in the order of the source
(packets.c:225-243): the checksum field is not among them and each address
contributes its low half before its high half. -/
def IP_summed (h : IP_Header_t) : List Nat :=
  [ (h.version_n_IHL <<< 8) ||| h.type_of_service,
    h.total_length,
    h.id,
    h.flags_n_offset,
    (h.time_to_live <<< 8) ||| h.protocol,
    h.src_address &&& 0xFFFF,
    (h.src_address >>> 16) &&& 0xFFFF,
    h.dst_address &&& 0xFFFF,
    (h.dst_address >>> 16) &&& 0xFFFF ]

/-- The fifteen words `TCP_update_checksum` adds up, in the order of the source
(packets.c:449-491): six pseudo-header words, then the TCP words without the
checksum field. -/
def TCP_summed (t : TCP_Header_t) (p : IP_Header_t) : List Nat :=
  [ p.protocol,
    p.src_address &&& 0xFFFF,
    (p.src_address >>> 16) &&& 0xFFFF,
    p.dst_address &&& 0xFFFF,
    (p.dst_address >>> 16) &&& 0xFFFF,
    20,
    t.src_port,
    t.dst_port,
    t.sequence_num &&& 0xFFFF,
    (t.sequence_num >>> 16) &&& 0xFFFF,
    t.ack_num &&& 0xFFFF,
    (t.ack_num >>> 16) &&& 0xFFFF,
    (t.offset_n_reserved <<< 8) ||| t.control_bits,
    t.window,
    t.urgent_ptr ]

/-- The nine words of an IP header other than the checksum, in wire order (each
address high half first). -/
def IP_wire_summed (h : IP_Header_t) : List Nat :=
  [ (h.version_n_IHL <<< 8) ||| h.type_of_service,
    h.total_length,
    h.id,
    h.flags_n_offset,
    (h.time_to_live <<< 8) ||| h.protocol,
    (h.src_address >>> 16) &&& 0xFFFF,
    h.src_address &&& 0xFFFF,
    (h.dst_address >>> 16) &&& 0xFFFF,
    h.dst_address &&& 0xFFFF ]

/-- The pseudo-header words in wire order (addresses high half first, then protocol and
length) followed by the TCP words other than the checksum in wire order (sequence and
acknowledgment numbers high half first). -/
def TCP_wire_summed (t : TCP_Header_t) (p : IP_Header_t) : List Nat :=
  [ (p.src_address >>> 16) &&& 0xFFFF,
    p.src_address &&& 0xFFFF,
    (p.dst_address >>> 16) &&& 0xFFFF,
    p.dst_address &&& 0xFFFF,
    p.protocol,
    20,
    t.src_port,
    t.dst_port,
    (t.sequence_num >>> 16) &&& 0xFFFF,
    t.sequence_num &&& 0xFFFF,
    (t.ack_num >>> 16) &&& 0xFFFF,
    t.ack_num &&& 0xFFFF,
    (t.offset_n_reserved <<< 8) ||| t.control_bits,
    t.window,
    t.urgent_ptr ]

/-! ## Scenario headers -/

/-- The IP header of the checksum scenario: version 4, IHL 5, total length `0x003c`,
id `0x1c46`, flags/offset `0x4000`, TTL `0x40`, protocol 6, checksum 0. -/
def scenario_ip : IP_Header_t :=
  { version_n_IHL := 0x45, type_of_service := 0, total_length := 0x003c, id := 0x1c46,
    flags_n_offset := 0x4000, time_to_live := 0x40, protocol := 0x06, checksum := 0,
    src_address := 0xac100a63, dst_address := 0xac100a0c }

/-- The TCP header of the pseudo-header scenario: ports 1234 and 80, sequence number 1,
acknowledgment 0, offset 5, reserved 0, control bits `0x02`, window 8192. -/
def scenario_tcp : TCP_Header_t :=
  { src_port := 1234, dst_port := 80, sequence_num := 1, ack_num := 0,
    offset_n_reserved := 0x50, control_bits := 0x02, window := 8192, checksum := 0,
    urgent_ptr := 0 }

/-- The all-zero IP header (a fresh header). -/
def zero_ip : IP_Header_t :=
  { version_n_IHL := 0, type_of_service := 0, total_length := 0, id := 0,
    flags_n_offset := 0, time_to_live := 0, protocol := 0, checksum := 0,
    src_address := 0, dst_address := 0 }

/-- The all-zero TCP header (a fresh header). -/
def zero_tcp : TCP_Header_t :=
  { src_port := 0, dst_port := 0, sequence_num := 0, ack_num := 0,
    offset_n_reserved := 0, control_bits := 0, window := 0, checksum := 0,
    urgent_ptr := 0 }

/-! ## Big-endian byte strings -/

/-- The two bytes of a 16-bit value, most significant first (network order). -/
def be_bytes16 (x : Nat) : List Nat :=
  [x / 2 ^ 8 % 2 ^ 8, x % 2 ^ 8]

/-- The four bytes of a 32-bit value, most significant first (network order). -/
def be_bytes32 (x : Nat) : List Nat :=
  [x / 2 ^ 24 % 2 ^ 8, x / 2 ^ 16 % 2 ^ 8, x / 2 ^ 8 % 2 ^ 8, x % 2 ^ 8]

/-! ## Headers that differ at most in the checksum field -/

/-- Two IP headers agree on every field other than `checksum`. -/
def IP_Header_t.agree_except_checksum (h1 h2 : IP_Header_t) : Prop :=
  h1.version_n_IHL = h2.version_n_IHL ∧ h1.type_of_service = h2.type_of_service ∧
  h1.total_length = h2.total_length ∧ h1.id = h2.id ∧
  h1.flags_n_offset = h2.flags_n_offset ∧ h1.time_to_live = h2.time_to_live ∧
  h1.protocol = h2.protocol ∧ h1.src_address = h2.src_address ∧
  h1.dst_address = h2.dst_address

instance (h1 h2 : IP_Header_t) : Decidable (h1.agree_except_checksum h2) := by
  unfold IP_Header_t.agree_except_checksum; infer_instance

/-- Two TCP headers agree on every field other than `checksum`. -/
def TCP_Header_t.agree_except_checksum (t1 t2 : TCP_Header_t) : Prop :=
  t1.src_port = t2.src_port ∧ t1.dst_port = t2.dst_port ∧
  t1.sequence_num = t2.sequence_num ∧ t1.ack_num = t2.ack_num ∧
  t1.offset_n_reserved = t2.offset_n_reserved ∧ t1.control_bits = t2.control_bits ∧
  t1.window = t2.window ∧ t1.urgent_ptr = t2.urgent_ptr

instance (t1 t2 : TCP_Header_t) : Decidable (t1.agree_except_checksum t2) := by
  unfold TCP_Header_t.agree_except_checksum; infer_instance

/-! ## Setter calls as data -/

/-- A call of one of the twelve IP field setters, with its argument.  The constructor
names the field the setter targets. -/
inductive IP_Setter where
  | version (v : Nat)
  | IHL (v : Nat)
  | type_of_service (v : Nat)
  | total_length (v : Nat)
  | id (v : Nat)
  | flags (v : Nat)
  | offset (v : Nat)
  | time_to_live (v : Nat)
  | protocol (v : Nat)
  | checksum (v : Nat)
  | src_address (v : Nat)
  | dst_address (v : Nat)
  deriving DecidableEq, Repr

/-- Index of the field an IP setter call targets. -/
def IP_Setter.field : IP_Setter → Nat
  | .version _ => 0
  | .IHL _ => 1
  | .type_of_service _ => 2
  | .total_length _ => 3
  | .id _ => 4
  | .flags _ => 5
  | .offset _ => 6
  | .time_to_live _ => 7
  | .protocol _ => 8
  | .checksum _ => 9
  | .src_address _ => 10
  | .dst_address _ => 11

/-- Perform an IP setter call on a header. -/
def IP_Setter.apply : IP_Setter → IP_Header_t → IP_Header_t
  | .version v, h => IP_set_version h v
  | .IHL v, h => IP_set_IHL h v
  | .type_of_service v, h => IP_set_type_of_service h v
  | .total_length v, h => IP_set_total_length h v
  | .id v, h => IP_set_id h v
  | .flags v, h => IP_set_flags h v
  | .offset v, h => IP_set_offset h v
  | .time_to_live v, h => IP_set_time_to_live h v
  | .protocol v, h => IP_set_protocol h v
  | .checksum v, h => IP_set_checksum h v
  | .src_address v, h => IP_set_src_address h v
  | .dst_address v, h => IP_set_dst_address h v

/-- A call of one of the ten TCP field setters, with its argument.  The constructor
names the field the setter targets. -/
inductive TCP_Setter where
  | src_port (v : Nat)
  | dst_port (v : Nat)
  | sequence_num (v : Nat)
  | ack_num (v : Nat)
  | offset (v : Nat)
  | reserved (v : Nat)
  | control_bits (v : Nat)
  | window (v : Nat)
  | checksum (v : Nat)
  | ugent_ptr (v : Nat)
  deriving DecidableEq, Repr

/-- Index of the field a TCP setter call targets. -/
def TCP_Setter.field : TCP_Setter → Nat
  | .src_port _ => 0
  | .dst_port _ => 1
  | .sequence_num _ => 2
  | .ack_num _ => 3
  | .offset _ => 4
  | .reserved _ => 5
  | .control_bits _ => 6
  | .window _ => 7
  | .checksum _ => 8
  | .ugent_ptr _ => 9

/-- Perform a TCP setter call on a header. -/
def TCP_Setter.apply : TCP_Setter → TCP_Header_t → TCP_Header_t
  | .src_port v, t => TCP_set_src_port t v
  | .dst_port v, t => TCP_set_dst_port t v
  | .sequence_num v, t => TCP_set_sequence_num t v
  | .ack_num v, t => TCP_set_ack_num t v
  | .offset v, t => TCP_set_offset t v
  | .reserved v, t => TCP_set_reserved t v
  | .control_bits v, t => TCP_set_control_bits t v
  | .window v, t => TCP_set_window t v
  | .checksum v, t => TCP_set_checksum t v
  | .ugent_ptr v, t => TCP_set_ugent_ptr t v

/-! ## Calls through header pointers -/

/-- Value of the C library constant `EINVAL` (`<errno.h>`), which `packets.c` uses
without defining it. -/
def EINVAL : Int := 22

/-- Value of the C library constant `EXIT_FAILURE` (`<stdlib.h>`), which `packets.c`
uses without defining it. -/
def EXIT_FAILURE : Int := 1

/-- The two messages `packets.c` passes to `perror`. -/
inductive Perror where
  | Object_is_NULL
  | IP_Segment_is_NULL
  deriving DecidableEq, Repr

/-- How a call through header pointers ends: it returns, leaving the pointed-to
object(s) in the given state; or it reports a message with `perror` and terminates the
process with `exit(status)`; or it dereferences a NULL pointer, which no guard of the
source precedes (undefined behaviour, no report is made). -/
inductive Outcome (α : Type) where
  | returned (state : α)
  | exited (message : Perror) (status : Int)
  | null_dereference
  deriving DecidableEq, Repr

/-- The call reported the invalid-reference error and terminated. -/
def Outcome.raised {α : Type} : Outcome α → Bool
  | .exited _ _ => true
  | _ => false

namespace Ptr

/-- `IP_set_version` called through a pointer (packets.c:13): the guard
`if (this == NULL) { perror("Object is NULL"); exit(-EINVAL); }`, then the body. -/
def IP_set_version (this : Option IP_Header_t) (version : Nat) : Outcome IP_Header_t :=
  match this with
  | none => .exited .Object_is_NULL (-EINVAL)
  | some h => .returned (PacketInjection.IP_set_version h version)

/-- `IP_set_IHL` called through a pointer (packets.c:32): the guard
`if (this == NULL) { perror("Object is NULL"); exit(-EINVAL); }`, then the body. -/
def IP_set_IHL (this : Option IP_Header_t) (IHL : Nat) : Outcome IP_Header_t :=
  match this with
  | none => .exited .Object_is_NULL (-EINVAL)
  | some h => .returned (PacketInjection.IP_set_IHL h IHL)

/-- `IP_set_type_of_service` called through a pointer (packets.c:51): the guard
`if (this == NULL) { perror("Object is NULL"); exit(-EINVAL); }`, then the body. -/
def IP_set_type_of_service (this : Option IP_Header_t) (type_of_service : Nat) :
    Outcome IP_Header_t :=
  match this with
  | none => .exited .Object_is_NULL (-EINVAL)
  | some h => .returned (PacketInjection.IP_set_type_of_service h type_of_service)

/-- `IP_set_total_length` called through a pointer (packets.c:67): the guard
`if (this == NULL) { perror("Object is NULL"); exit(-EINVAL); }`, then the body. -/
def IP_set_total_length (this : Option IP_Header_t) (total_length : Nat) : Outcome IP_Header_t :=
  match this with
  | none => .exited .Object_is_NULL (-EINVAL)
  | some h => .returned (PacketInjection.IP_set_total_length h total_length)

/-- `IP_set_id` called through a pointer (packets.c:82): the guard
`if (this == NULL) { perror("Object is NULL"); exit(-EINVAL); }`, then the body. -/
def IP_set_id (this : Option IP_Header_t) (id : Nat) : Outcome IP_Header_t :=
  match this with
  | none => .exited .Object_is_NULL (-EINVAL)
  | some h => .returned (PacketInjection.IP_set_id h id)

/-- `IP_set_flags` called through a pointer (packets.c:99): the guard
`if (this == NULL) { perror("Object is NULL"); exit(-EINVAL); }`, then the body. -/
def IP_set_flags (this : Option IP_Header_t) (flags : Nat) : Outcome IP_Header_t :=
  match this with
  | none => .exited .Object_is_NULL (-EINVAL)
  | some h => .returned (PacketInjection.IP_set_flags h flags)

/-- `IP_set_offset` called through a pointer (packets.c:117): the guard
`if (this == NULL) { perror("Object is NULL"); exit(-EINVAL); }`, then the body. -/
def IP_set_offset (this : Option IP_Header_t) (offset : Nat) : Outcome IP_Header_t :=
  match this with
  | none => .exited .Object_is_NULL (-EINVAL)
  | some h => .returned (PacketInjection.IP_set_offset h offset)

/-- `IP_set_time_to_live` called through a pointer (packets.c:136): the guard
`if (this == NULL) { perror("Object is NULL"); exit(-EINVAL); }`, then the body. -/
def IP_set_time_to_live (this : Option IP_Header_t) (time_to_live : Nat) : Outcome IP_Header_t :=
  match this with
  | none => .exited .Object_is_NULL (-EINVAL)
  | some h => .returned (PacketInjection.IP_set_time_to_live h time_to_live)

/-- `IP_set_protocol` called through a pointer (packets.c:152): the guard
`if (this == NULL) { perror("Object is NULL"); exit(-EINVAL); }`, then the body. -/
def IP_set_protocol (this : Option IP_Header_t) (protocol : Nat) : Outcome IP_Header_t :=
  match this with
  | none => .exited .Object_is_NULL (-EINVAL)
  | some h => .returned (PacketInjection.IP_set_protocol h protocol)

/-- `IP_set_checksum` called through a pointer (packets.c:167): the guard
`if (this == NULL) { perror("Object is NULL"); exit(-EINVAL); }`, then the body. -/
def IP_set_checksum (this : Option IP_Header_t) (checksum : Nat) : Outcome IP_Header_t :=
  match this with
  | none => .exited .Object_is_NULL (-EINVAL)
  | some h => .returned (PacketInjection.IP_set_checksum h checksum)

/-- `IP_set_src_address` called through a pointer (packets.c:182): the guard
`if (this == NULL) { perror("Object is NULL"); exit(-EINVAL); }`, then the body. -/
def IP_set_src_address (this : Option IP_Header_t) (src_address : Nat) : Outcome IP_Header_t :=
  match this with
  | none => .exited .Object_is_NULL (-EINVAL)
  | some h => .returned (PacketInjection.IP_set_src_address h src_address)

/-- `IP_set_dst_address` called through a pointer (packets.c:200): the guard
`if (this == NULL) { perror("Object is NULL"); exit(-EINVAL); }`, then the body. -/
def IP_set_dst_address (this : Option IP_Header_t) (dst_address : Nat) : Outcome IP_Header_t :=
  match this with
  | none => .exited .Object_is_NULL (-EINVAL)
  | some h => .returned (PacketInjection.IP_set_dst_address h dst_address)

/-- `IP_update_checksum` called through a pointer (packets.c:217): the guard
`if (this == NULL) { perror("Object is NULL"); exit(EXIT_FAILURE); }`, then the body. -/
def IP_update_checksum (this : Option IP_Header_t) : Outcome IP_Header_t :=
  match this with
  | none => .exited .Object_is_NULL EXIT_FAILURE
  | some h => .returned (PacketInjection.IP_update_checksum h)

/-- `TCP_set_src_port` called through a pointer (packets.c:259): the guard
`if (this == NULL) { perror("Object is NULL"); exit(-EINVAL); }`, then the body. -/
def TCP_set_src_port (this : Option TCP_Header_t) (src_port : Nat) : Outcome TCP_Header_t :=
  match this with
  | none => .exited .Object_is_NULL (-EINVAL)
  | some t => .returned (PacketInjection.TCP_set_src_port t src_port)

/-- `TCP_set_dst_port` called through a pointer (packets.c:274): the guard
`if (this == NULL) { perror("Object is NULL"); exit(-EINVAL); }`, then the body. -/
def TCP_set_dst_port (this : Option TCP_Header_t) (dst_port : Nat) : Outcome TCP_Header_t :=
  match this with
  | none => .exited .Object_is_NULL (-EINVAL)
  | some t => .returned (PacketInjection.TCP_set_dst_port t dst_port)

/-- `TCP_set_sequence_num` called through a pointer (packets.c:289): the guard
`if (this == NULL) { perror("Object is NULL"); exit(-EINVAL); }`, then the body. -/
def TCP_set_sequence_num (this : Option TCP_Header_t) (seq_num : Nat) : Outcome TCP_Header_t :=
  match this with
  | none => .exited .Object_is_NULL (-EINVAL)
  | some t => .returned (PacketInjection.TCP_set_sequence_num t seq_num)

/-- `TCP_set_ack_num` called through a pointer (packets.c:305): the guard
`if (this == NULL) { perror("Object is NULL"); exit(-EINVAL); }`, then the body. -/
def TCP_set_ack_num (this : Option TCP_Header_t) (ack_num : Nat) : Outcome TCP_Header_t :=
  match this with
  | none => .exited .Object_is_NULL (-EINVAL)
  | some t => .returned (PacketInjection.TCP_set_ack_num t ack_num)

/-- `TCP_set_offset` called through a pointer (packets.c:320): the guard
`if (this == NULL) { perror("Object is NULL"); exit(-EINVAL); }`, then the body. -/
def TCP_set_offset (this : Option TCP_Header_t) (offset : Nat) : Outcome TCP_Header_t :=
  match this with
  | none => .exited .Object_is_NULL (-EINVAL)
  | some t => .returned (PacketInjection.TCP_set_offset t offset)

/-- `TCP_set_reserved` called through a pointer (packets.c:337): the guard
`if (this == NULL) { perror("Object is NULL"); exit(-EINVAL); }`, then the body. -/
def TCP_set_reserved (this : Option TCP_Header_t) (reserved : Nat) : Outcome TCP_Header_t :=
  match this with
  | none => .exited .Object_is_NULL (-EINVAL)
  | some t => .returned (PacketInjection.TCP_set_reserved t reserved)

/-- `TCP_set_control_bits` called through a pointer (packets.c:358): the guard
`if (this == NULL) { perror("Object is NULL"); exit(-EINVAL); }`, then the body. -/
def TCP_set_control_bits (this : Option TCP_Header_t) (flags : Nat) : Outcome TCP_Header_t :=
  match this with
  | none => .exited .Object_is_NULL (-EINVAL)
  | some t => .returned (PacketInjection.TCP_set_control_bits t flags)

/-- `TCP_set_window` called through a pointer (packets.c:374): the guard
`if (this == NULL) { perror("Object is NULL"); exit(-EINVAL); }`, then the body. -/
def TCP_set_window (this : Option TCP_Header_t) (window : Nat) : Outcome TCP_Header_t :=
  match this with
  | none => .exited .Object_is_NULL (-EINVAL)
  | some t => .returned (PacketInjection.TCP_set_window t window)

/-- `TCP_set_checksum` called through a pointer (packets.c:389): the guard
`if (this == NULL) { perror("Object is NULL"); exit(-EINVAL); }`, then the body. -/
def TCP_set_checksum (this : Option TCP_Header_t) (checksum : Nat) : Outcome TCP_Header_t :=
  match this with
  | none => .exited .Object_is_NULL (-EINVAL)
  | some t => .returned (PacketInjection.TCP_set_checksum t checksum)

/-- `TCP_set_ugent_ptr` called through a pointer (packets.c:405): the guard
`if (this == NULL) { perror("Object is NULL"); exit(-EINVAL); }`, then the body. -/
def TCP_set_ugent_ptr (this : Option TCP_Header_t) (urgent_ptr : Nat) : Outcome TCP_Header_t :=
  match this with
  | none => .exited .Object_is_NULL (-EINVAL)
  | some t => .returned (PacketInjection.TCP_set_ugent_ptr t urgent_ptr)

/-- `TCP_update_checksum` called through its two pointers (packets.c:435): the guard on
`this` (`perror("Object is NULL"); exit(EXIT_FAILURE);`), then the guard on `IP_segment`
(`perror("IP Segment is NULL"); exit(EXIT_FAILURE);`), then the body.  The body assigns
only to `this->checksum`; the returned state is the pair of both pointed-to headers. -/
def TCP_update_checksum (this : Option TCP_Header_t) (IP_segment : Option IP_Header_t) :
    Outcome (TCP_Header_t × IP_Header_t) :=
  match this with
  | none => .exited .Object_is_NULL EXIT_FAILURE
  | some t =>
    match IP_segment with
    | none => .exited .IP_Segment_is_NULL EXIT_FAILURE
    | some p => .returned (PacketInjection.TCP_update_checksum t p, p)

/-- `hton_ip` called through a pointer (packets.c:504).  The source has no guard: its
first statement reads `ip->total_length`, so a NULL `ip` is dereferenced. -/
def hton_ip (ip : Option IP_Header_t) : Outcome IP_Header_t :=
  match ip with
  | none => .null_dereference
  | some h => .returned (PacketInjection.hton_ip h)

/-- `hton_tcp` called through a pointer (packets.c:520).  The source has no guard: its
first statement reads `tcp->src_port`, so a NULL `tcp` is dereferenced. -/
def hton_tcp (tcp : Option TCP_Header_t) : Outcome TCP_Header_t :=
  match tcp with
  | none => .null_dereference
  | some t => .returned (PacketInjection.hton_tcp t)

end Ptr

/-! # Theorems -/

/-! ## The checksum engine as arithmetic -/

theorem ones_complement_add_eq (a b : Nat) (ha : a < 2 ^ 16) (hb : b < 2 ^ 16) :
    ones_complement_add a b = (a + b) % 2 ^ 16 + (a + b) / 2 ^ 16 := by
  unfold ones_complement_add
  simp only [show (0xFFFF : Nat) = 2 ^ 16 - 1 from rfl, Nat.and_pow_two_sub_one_eq_mod,
    Nat.shiftRight_eq_div_pow]
  omega

theorem ones_complement_add_lt (a b : Nat) : ones_complement_add a b < 2 ^ 16 := by
  unfold ones_complement_add
  exact Nat.mod_lt _ (by decide)

theorem ones_complement_add_mod_self (a b : Nat) :
    ones_complement_add a b % 2 ^ 16 = ones_complement_add a b :=
  Nat.mod_eq_of_lt (ones_complement_add_lt a b)

theorem ones_complement_add_mod (a b : Nat) (ha : a < 2 ^ 16) (hb : b < 2 ^ 16) :
    ones_complement_add a b % 65535 = (a + b) % 65535 := by
  rw [ones_complement_add_eq a b ha hb]
  omega

theorem ones_complement_add_eq_zero (a b : Nat) (ha : a < 2 ^ 16) (hb : b < 2 ^ 16) :
    ones_complement_add a b = 0 ↔ a = 0 ∧ b = 0 := by
  rw [ones_complement_add_eq a b ha hb]
  omega

/-- C4: for 16-bit `a` and `b`, `ones_complement_add a b` is the low 16 bits of `a + b`
plus the carry out of bit 16, computed over the integers; that value never exceeds
`0xFFFF`, so the final conversion to 16 bits discards nothing.  The boundary cases are
`0xFFFF + 0xFFFF = 0xFFFF`, `0 + 0 = 0` and `0xFFFF + 1 = 1`. -/
theorem ones_complement_add_fold_rule (a b : Nat) (ha : a < 2 ^ 16) (hb : b < 2 ^ 16) :
    ones_complement_add a b = (a + b) % 2 ^ 16 + (a + b) / 2 ^ 16 ∧
    (a + b) % 2 ^ 16 + (a + b) / 2 ^ 16 ≤ 0xFFFF ∧
    ones_complement_add 0xFFFF 0xFFFF = 0xFFFF ∧
    ones_complement_add 0 0 = 0 ∧
    ones_complement_add 0xFFFF 0x0001 = 0x0001 := by
  refine ⟨ones_complement_add_eq a b ha hb, ?_, by decide, by decide, by decide⟩
  omega

theorem ones_complement_add_fold_rule_witness :
    (0xFFFE < 2 ^ 16 ∧ 0x0003 < 2 ^ 16) ∧
    (ones_complement_add 0xFFFE 0x0003 = (0xFFFE + 0x0003) % 2 ^ 16 + (0xFFFE + 0x0003) / 2 ^ 16 ∧
    (0xFFFE + 0x0003) % 2 ^ 16 + (0xFFFE + 0x0003) / 2 ^ 16 ≤ 0xFFFF ∧
    ones_complement_add 0xFFFF 0xFFFF = 0xFFFF ∧
    ones_complement_add 0 0 = 0 ∧
    ones_complement_add 0xFFFF 0x0001 = 0x0001) :=
  ⟨⟨by decide, by decide⟩, ones_complement_add_fold_rule 0xFFFE 0x0003 (by decide) (by decide)⟩

/-- C5: the checksum primitive is commutative, `ones_complement_add a b =
ones_complement_add b a` (for all arguments, in particular all 16-bit ones). -/
theorem ones_complement_add_comm (a b : Nat) :
    ones_complement_add a b = ones_complement_add b a := by
  unfold ones_complement_add
  rw [Nat.add_comm a b]

/-! ## Folding the engine over a word list -/

theorem foldl_ones_complement_add_lt (ws : List Nat) (acc : Nat) (hacc : acc < 2 ^ 16) :
    ws.foldl ones_complement_add acc < 2 ^ 16 := by
  induction ws generalizing acc with
  | nil => simpa using hacc
  | cons w ws ih => exact ih _ (ones_complement_add_lt acc w)

theorem foldl_ones_complement_add_mod (ws : List Nat) (hws : ∀ w ∈ ws, w < 2 ^ 16)
    (acc : Nat) (hacc : acc < 2 ^ 16) :
    ws.foldl ones_complement_add acc % 65535 = (acc + ws.sum) % 65535 := by
  induction ws generalizing acc with
  | nil => simp
  | cons w ws ih =>
    have hw : w < 2 ^ 16 := hws w (List.mem_cons_self w ws)
    have hrest : ∀ x ∈ ws, x < 2 ^ 16 := fun x hx => hws x (List.mem_cons_of_mem w hx)
    rw [List.foldl_cons, ih hrest _ (ones_complement_add_lt acc w), List.sum_cons]
    have h := ones_complement_add_mod acc w hacc hw
    omega

theorem foldl_ones_complement_add_eq_zero (ws : List Nat) (hws : ∀ w ∈ ws, w < 2 ^ 16)
    (acc : Nat) (hacc : acc < 2 ^ 16) :
    ws.foldl ones_complement_add acc = 0 ↔ acc + ws.sum = 0 := by
  induction ws generalizing acc with
  | nil => simp
  | cons w ws ih =>
    have hw : w < 2 ^ 16 := hws w (List.mem_cons_self w ws)
    have hrest : ∀ x ∈ ws, x < 2 ^ 16 := fun x hx => hws x (List.mem_cons_of_mem w hx)
    rw [List.foldl_cons, ih hrest _ (ones_complement_add_lt acc w), List.sum_cons]
    have h := ones_complement_add_eq_zero acc w hacc hw
    omega

theorem checksum_fold_lt (ws : List Nat) : checksum_fold ws < 2 ^ 16 :=
  foldl_ones_complement_add_lt ws 0 (by decide)

/-- A list of 16-bit words whose plain sum is a nonzero multiple of `0xFFFF` folds to
`0xFFFF`. -/
theorem checksum_fold_eq_ffff (ws : List Nat) (hws : ∀ w ∈ ws, w < 2 ^ 16)
    (hmod : ws.sum % 65535 = 0) (hne : ws.sum ≠ 0) : checksum_fold ws = 0xFFFF := by
  have h1 : checksum_fold ws < 2 ^ 16 := checksum_fold_lt ws
  have h2 : checksum_fold ws % 65535 = (0 + ws.sum) % 65535 :=
    foldl_ones_complement_add_mod ws hws 0 (by decide)
  have h3 : checksum_fold ws = 0 ↔ 0 + ws.sum = 0 :=
    foldl_ones_complement_add_eq_zero ws hws 0 (by decide)
  omega

/-- Placing the complement of the folded sum of `body` anywhere among words with the
same plain sum as `body` gives a list that folds to `0xFFFF`. -/
theorem checksum_fold_with_complement (body pre post : List Nat)
    (hbody : ∀ w ∈ body, w < 2 ^ 16) (hpre : ∀ w ∈ pre, w < 2 ^ 16)
    (hpost : ∀ w ∈ post, w < 2 ^ 16) (hsum : pre.sum + post.sum = body.sum) :
    checksum_fold (pre ++ (65535 - checksum_fold body) :: post) = 0xFFFF := by
  have h1 : checksum_fold body < 2 ^ 16 := checksum_fold_lt body
  have h2 : checksum_fold body % 65535 = (0 + body.sum) % 65535 :=
    foldl_ones_complement_add_mod body hbody 0 (by decide)
  have h3 : checksum_fold body = 0 ↔ 0 + body.sum = 0 :=
    foldl_ones_complement_add_eq_zero body hbody 0 (by decide)
  apply checksum_fold_eq_ffff
  · intro w hw
    rcases List.mem_append.1 hw with h | h
    · exact hpre w h
    · rcases List.mem_cons.1 h with h | h
      · omega
      · exact hpost w h
  · simp only [List.sum_append, List.sum_cons]
    omega
  · simp only [List.sum_append, List.sum_cons]
    omega

/-! ## Bounds on packed words and address halves -/

theorem pack_lt (hi lo : Nat) (hhi : hi < 2 ^ 8) (hlo : lo < 2 ^ 8) :
    (hi <<< 8) ||| lo < 2 ^ 16 :=
  Nat.or_lt_two_pow (Nat.shiftLeft_lt hhi) (Nat.lt_trans hlo (by decide))

theorem low_half_lt (x : Nat) : x &&& 0xFFFF < 2 ^ 16 :=
  Nat.and_lt_two_pow x (by decide)

theorem and_ffff (x : Nat) : x &&& 0xFFFF = x % 2 ^ 16 :=
  Nat.and_pow_two_sub_one_eq_mod x 16

theorem pack_eq (hi lo : Nat) (hlo : lo < 2 ^ 8) : (hi <<< 8) ||| lo = hi * 2 ^ 8 + lo := by
  rw [Nat.shiftLeft_eq, Nat.mul_comm hi (2 ^ 8)]
  exact (Nat.mul_add_lt_is_or hlo hi).symm

/-! ## IP checksum -/

theorem IP_summed_lt (h : IP_Header_t) (hwf : h.wf) : ∀ w ∈ IP_summed h, w < 2 ^ 16 := by
  obtain ⟨h1, h2, h3, h4, h5, h6, h7, _, _, _⟩ := hwf
  have a1 := pack_lt _ _ h1 h2
  have a2 := pack_lt _ _ h6 h7
  have a3 := low_half_lt h.src_address
  have a4 := low_half_lt (h.src_address >>> 16)
  have a5 := low_half_lt h.dst_address
  have a6 := low_half_lt (h.dst_address >>> 16)
  simp only [IP_summed, List.mem_cons, List.mem_singleton, List.mem_nil_iff, or_false]
  rintro w (rfl | rfl | rfl | rfl | rfl | rfl | rfl | rfl | rfl) <;> assumption

/-- The checksum stored by `IP_update_checksum` is the complement of the folded sum of
the nine other header words. -/
theorem IP_update_checksum_checksum (h : IP_Header_t) (hwf : h.wf) :
    (IP_update_checksum h).checksum = 65535 - checksum_fold (IP_summed h) := by
  obtain ⟨h1, h2, _, _, _, h6, h7, _, _, _⟩ := hwf
  have a1 := pack_lt _ _ h1 h2
  have a2 := pack_lt _ _ h6 h7
  have a3 := low_half_lt h.src_address
  have a4 := low_half_lt (h.src_address >>> 16)
  have a5 := low_half_lt h.dst_address
  have a6 := low_half_lt (h.dst_address >>> 16)
  have hlt := checksum_fold_lt (IP_summed h)
  simp only [IP_update_checksum, Nat.mod_eq_of_lt a1, Nat.mod_eq_of_lt a2,
    Nat.mod_eq_of_lt a3, Nat.mod_eq_of_lt a4, Nat.mod_eq_of_lt a5, Nat.mod_eq_of_lt a6]
  simp only [checksum_fold, IP_summed, List.foldl_cons, List.foldl_nil] at hlt ⊢
  omega

theorem IP_update_checksum_wf (h : IP_Header_t) (hwf : h.wf) : (IP_update_checksum h).wf := by
  have hc := IP_update_checksum_checksum h hwf
  obtain ⟨h1, h2, h3, h4, h5, h6, h7, _, h9, h10⟩ := hwf
  refine ⟨h1, h2, h3, h4, h5, h6, h7, ?_, h9, h10⟩
  rw [hc]
  omega

theorem IP_validation (h : IP_Header_t) (hwf : h.wf) :
    checksum_fold (IP_words (IP_update_checksum h)) = 0xFFFF := by
  have hsummed := IP_summed_lt h hwf
  have hc := IP_update_checksum_checksum h hwf
  have hw : IP_words (IP_update_checksum h) =
      [ (h.version_n_IHL <<< 8) ||| h.type_of_service, h.total_length, h.id,
        h.flags_n_offset, (h.time_to_live <<< 8) ||| h.protocol ] ++
      (65535 - checksum_fold (IP_summed h)) ::
      [ (h.src_address >>> 16) &&& 0xFFFF, h.src_address &&& 0xFFFF,
        (h.dst_address >>> 16) &&& 0xFFFF, h.dst_address &&& 0xFFFF ] := by
    rw [← hc]; rfl
  rw [hw]
  apply checksum_fold_with_complement (IP_summed h) _ _ hsummed
  · intro w hw; apply hsummed
    simp only [IP_summed, List.mem_cons, List.mem_singleton, List.mem_nil_iff,
      or_false] at hw ⊢
    tauto
  · intro w hw; apply hsummed
    simp only [IP_summed, List.mem_cons, List.mem_singleton, List.mem_nil_iff,
      or_false] at hw ⊢
    tauto
  · simp only [IP_summed, List.sum_cons, List.sum_nil]
    omega

/-- C1: for every IP header (any value in every field, any prior checksum), after
`IP_update_checksum` the ten 16-bit header words in wire order, the stored checksum
included, fold under `ones_complement_add` from accumulator 0 to `0xFFFF`.  For the
scenario header (version 4, IHL 5, total length `0x003c`, id `0x1c46`, flags/offset
`0x4000`, TTL `0x40`, protocol 6, addresses `0xac100a63` and `0xac100a0c`) the stored
checksum is `0xB1E6`. -/
theorem IP_checksum_validation_identity (h : IP_Header_t) (hwf : h.wf) :
    checksum_fold (IP_words (IP_update_checksum h)) = 0xFFFF ∧
    (IP_update_checksum scenario_ip).checksum = 0xB1E6 :=
  ⟨IP_validation h hwf, by decide⟩

theorem IP_checksum_validation_identity_scenario :
    scenario_ip.wf ∧
    (checksum_fold (IP_words (IP_update_checksum scenario_ip)) = 0xFFFF ∧
    (IP_update_checksum scenario_ip).checksum = 0xB1E6) :=
  ⟨by decide, IP_checksum_validation_identity scenario_ip (by decide)⟩

/-! ## TCP checksum -/

theorem TCP_summed_lt (t : TCP_Header_t) (p : IP_Header_t) (ht : t.wf) (hp : p.wf) :
    ∀ w ∈ TCP_summed t p, w < 2 ^ 16 := by
  obtain ⟨t1, t2, _, _, t5, t6, t7, _, t9⟩ := ht
  obtain ⟨_, _, _, _, _, _, p7, _, _, _⟩ := hp
  have a0 : p.protocol < 2 ^ 16 := Nat.lt_trans p7 (by decide)
  have a1 := low_half_lt p.src_address
  have a2 := low_half_lt (p.src_address >>> 16)
  have a3 := low_half_lt p.dst_address
  have a4 := low_half_lt (p.dst_address >>> 16)
  have a5 : 20 < 2 ^ 16 := by decide
  have a6 := low_half_lt t.sequence_num
  have a7 := low_half_lt (t.sequence_num >>> 16)
  have a8 := low_half_lt t.ack_num
  have a9 := low_half_lt (t.ack_num >>> 16)
  have a10 := pack_lt _ _ t5 t6
  simp only [TCP_summed, List.mem_cons, List.mem_singleton, List.mem_nil_iff, or_false]
  rintro w (rfl | rfl | rfl | rfl | rfl | rfl | rfl | rfl | rfl | rfl | rfl | rfl | rfl |
    rfl | rfl) <;> assumption

/-- The checksum stored by `TCP_update_checksum` is the complement of the folded sum of
the pseudo-header words and the nine other TCP words. -/
theorem TCP_update_checksum_checksum (t : TCP_Header_t) (p : IP_Header_t) (ht : t.wf) :
    (TCP_update_checksum t p).checksum = 65535 - checksum_fold (TCP_summed t p) := by
  obtain ⟨_, _, _, _, t5, t6, _, _, _⟩ := ht
  have a1 := low_half_lt p.src_address
  have a2 := low_half_lt (p.src_address >>> 16)
  have a3 := low_half_lt p.dst_address
  have a4 : (p.dst_address >>> 16) % 2 ^ 16 = (p.dst_address >>> 16) &&& 0xFFFF :=
    (and_ffff _).symm
  have a6 := low_half_lt t.sequence_num
  have a7 := low_half_lt (t.sequence_num >>> 16)
  have a8 := low_half_lt t.ack_num
  have a9 := low_half_lt (t.ack_num >>> 16)
  have a10 := pack_lt _ _ t5 t6
  have hlt := checksum_fold_lt (TCP_summed t p)
  simp only [TCP_update_checksum, ones_complement_add_mod_self, Nat.zero_mod, a4,
    Nat.mod_eq_of_lt a1, Nat.mod_eq_of_lt a2, Nat.mod_eq_of_lt a3, Nat.mod_eq_of_lt a6,
    Nat.mod_eq_of_lt a7, Nat.mod_eq_of_lt a8, Nat.mod_eq_of_lt a9, Nat.mod_eq_of_lt a10]
  simp only [checksum_fold, TCP_summed, List.foldl_cons, List.foldl_nil] at hlt ⊢
  omega

theorem TCP_validation (t : TCP_Header_t) (p : IP_Header_t) (ht : t.wf) (hp : p.wf) :
    checksum_fold (TCP_words (TCP_update_checksum t p) p) = 0xFFFF := by
  have hsummed := TCP_summed_lt t p ht hp
  have hc := TCP_update_checksum_checksum t p ht
  have hw : TCP_words (TCP_update_checksum t p) p =
      [ p.protocol, p.src_address &&& 0xFFFF, (p.src_address >>> 16) &&& 0xFFFF,
        p.dst_address &&& 0xFFFF, (p.dst_address >>> 16) &&& 0xFFFF, 20,
        t.src_port, t.dst_port, t.sequence_num &&& 0xFFFF,
        (t.sequence_num >>> 16) &&& 0xFFFF, t.ack_num &&& 0xFFFF,
        (t.ack_num >>> 16) &&& 0xFFFF, (t.offset_n_reserved <<< 8) ||| t.control_bits,
        t.window ] ++
      (65535 - checksum_fold (TCP_summed t p)) :: [ t.urgent_ptr ] := by
    rw [← hc]; rfl
  rw [hw]
  apply checksum_fold_with_complement (TCP_summed t p) _ _ hsummed
  · intro w hw; apply hsummed
    simp only [TCP_summed, List.mem_cons, List.mem_singleton, List.mem_nil_iff,
      or_false] at hw ⊢
    tauto
  · intro w hw; apply hsummed
    simp only [TCP_summed, List.mem_cons, List.mem_singleton, List.mem_nil_iff,
      or_false] at hw ⊢
    tauto
  · simp only [TCP_summed, List.sum_cons, List.sum_nil]
    omega

/-- C2: for every TCP header `t` and IP header `p`, after `TCP_update_checksum t p` the
six pseudo-header words (protocol, source and destination address halves, the constant
20) followed by the ten TCP words, the stored checksum included, fold under
`ones_complement_add` from accumulator 0 to `0xFFFF`. -/
theorem TCP_checksum_validation_identity (t : TCP_Header_t) (p : IP_Header_t)
    (ht : t.wf) (hp : p.wf) :
    checksum_fold (TCP_words (TCP_update_checksum t p) p) = 0xFFFF :=
  TCP_validation t p ht hp

theorem TCP_checksum_validation_identity_scenario :
    (scenario_tcp.wf ∧ scenario_ip.wf) ∧
    checksum_fold (TCP_words (TCP_update_checksum scenario_tcp scenario_ip) scenario_ip) =
      0xFFFF :=
  ⟨⟨by decide, by decide⟩,
    TCP_checksum_validation_identity scenario_tcp scenario_ip (by decide) (by decide)⟩

/-! ## Wire image of a converted IP header -/

theorem bytes2 (a b : Nat) (ha : a < 2 ^ 8) (hb : b < 2 ^ 8) :
    (a * 2 ^ 8 + b) % 2 ^ 8 = b ∧ (a * 2 ^ 8 + b) / 2 ^ 8 % 2 ^ 8 = a := by
  omega

theorem bytes4 (a b c d : Nat) (ha : a < 2 ^ 8) (hb : b < 2 ^ 8) (hc : c < 2 ^ 8)
    (hd : d < 2 ^ 8) :
    (a * 2 ^ 24 + b * 2 ^ 16 + c * 2 ^ 8 + d) % 2 ^ 8 = d ∧
    (a * 2 ^ 24 + b * 2 ^ 16 + c * 2 ^ 8 + d) / 2 ^ 8 % 2 ^ 8 = c ∧
    (a * 2 ^ 24 + b * 2 ^ 16 + c * 2 ^ 8 + d) / 2 ^ 16 % 2 ^ 8 = b ∧
    (a * 2 ^ 24 + b * 2 ^ 16 + c * 2 ^ 8 + d) / 2 ^ 24 % 2 ^ 8 = a := by
  omega

/-- The in-memory bytes of `htons x` on a little-endian host are the big-endian bytes
of `x`. -/
theorem le_bytes16_htons (x : Nat) :
    le_bytes16 (htons x) = [x / 2 ^ 8 % 2 ^ 8, x % 2 ^ 8] := by
  have h := bytes2 (x % 2 ^ 8) (x / 2 ^ 8 % 2 ^ 8) (Nat.mod_lt _ (by decide))
    (Nat.mod_lt _ (by decide))
  simp only [le_bytes16, htons, h.1, h.2]

/-- The in-memory bytes of `htonl x` on a little-endian host are the big-endian bytes
of `x`. -/
theorem le_bytes32_htonl (x : Nat) :
    le_bytes32 (htonl x) =
      [x / 2 ^ 24 % 2 ^ 8, x / 2 ^ 16 % 2 ^ 8, x / 2 ^ 8 % 2 ^ 8, x % 2 ^ 8] := by
  have h := bytes4 (x % 2 ^ 8) (x / 2 ^ 8 % 2 ^ 8) (x / 2 ^ 16 % 2 ^ 8) (x / 2 ^ 24 % 2 ^ 8)
    (Nat.mod_lt _ (by decide)) (Nat.mod_lt _ (by decide)) (Nat.mod_lt _ (by decide))
    (Nat.mod_lt _ (by decide))
  simp only [le_bytes32, htonl, h.1, h.2.1, h.2.2.1, h.2.2.2]

/-- On a little-endian host the bytes of a converted header, read as big-endian 16-bit
words, are the header words of the host-order header. -/
theorem be_words_IP_bytes_hton_ip (g : IP_Header_t) (hwf : g.wf) :
    be_words (IP_bytes (hton_ip g)) = IP_words g := by
  obtain ⟨h1, h2, h3, h4, h5, h6, h7, h8, h9, h10⟩ := hwf
  simp only [hton_ip, IP_bytes]
  simp only [le_bytes16_htons, le_bytes32_htonl, List.cons_append, List.nil_append]
  simp only [be_words, IP_words, pack_eq _ _ h2, pack_eq _ _ h7, and_ffff,
    Nat.shiftRight_eq_div_pow, List.cons.injEq, and_true]
  refine ⟨trivial, ?_, ?_, ?_, trivial, ?_, ?_, ?_, ?_, ?_⟩ <;> omega

theorem IP_bytes_length (g : IP_Header_t) : (IP_bytes g).length = 20 := rfl

theorem IP_bytes_lt (g : IP_Header_t) (h1 : g.version_n_IHL < 2 ^ 8)
    (h2 : g.type_of_service < 2 ^ 8) (h6 : g.time_to_live < 2 ^ 8)
    (h7 : g.protocol < 2 ^ 8) : ∀ b ∈ IP_bytes g, b < 2 ^ 8 := by
  simp only [IP_bytes, le_bytes16, le_bytes32, List.cons_append, List.nil_append,
    List.mem_cons, List.mem_singleton, List.mem_nil_iff, or_false]
  intro b hb
  omega

/-- C3: on a little-endian host, for every IP header `h`, the header
`hton_ip (IP_update_checksum h)` laid out field by field in declared order (multi-byte
fields least significant byte first) occupies 20 bytes which, read as ten big-endian
16-bit words and folded with `ones_complement_add` from 0, give `0xFFFF`: the bytes
handed to the sender carry a valid Internet checksum. -/
theorem IP_wire_checksum_valid (h : IP_Header_t) (hwf : h.wf) :
    (IP_bytes (hton_ip (IP_update_checksum h))).length = 20 ∧
    (∀ b ∈ IP_bytes (hton_ip (IP_update_checksum h)), b < 2 ^ 8) ∧
    checksum_fold (be_words (IP_bytes (hton_ip (IP_update_checksum h)))) = 0xFFFF := by
  obtain ⟨h1, h2, _, _, _, h6, h7, _, _, _⟩ := IP_update_checksum_wf h hwf
  refine ⟨IP_bytes_length _, IP_bytes_lt _ h1 h2 h6 h7, ?_⟩
  rw [be_words_IP_bytes_hton_ip _ (IP_update_checksum_wf h hwf)]
  exact IP_validation h hwf

theorem IP_wire_checksum_valid_scenario :
    scenario_ip.wf ∧
    ((IP_bytes (hton_ip (IP_update_checksum scenario_ip))).length = 20 ∧
    (∀ b ∈ IP_bytes (hton_ip (IP_update_checksum scenario_ip)), b < 2 ^ 8) ∧
    checksum_fold (be_words (IP_bytes (hton_ip (IP_update_checksum scenario_ip)))) =
      0xFFFF) ∧
    IP_bytes (hton_ip (IP_update_checksum scenario_ip)) =
      [0x45, 0x00, 0x00, 0x3c, 0x1c, 0x46, 0x40, 0x00, 0x40, 0x06, 0xb1, 0xe6,
       0xac, 0x10, 0x0a, 0x63, 0xac, 0x10, 0x0a, 0x0c] :=
  ⟨by decide, IP_wire_checksum_valid scenario_ip (by decide), by decide⟩

/-! ## Sub-byte and sub-word field setters -/

theorem testBit_high (x n i : Nat) (hx : x < 2 ^ n) (hi : n ≤ i) : x.testBit i = false :=
  Nat.testBit_lt_two_pow (Nat.lt_of_lt_of_le hx (Nat.pow_le_pow_right (by decide) hi))

theorem IP_set_flags_word (w v : Nat) :
    ((w &&& 0x1FFF) % 2 ^ 16 ||| (v <<< 13) % 2 ^ 16) % 2 ^ 16 =
      (w &&& 0x1FFF) ||| ((v &&& 0x7) <<< 13) := by
  apply Nat.eq_of_testBit_eq; intro i
  simp only [show (0x1FFF : Nat) = 2 ^ 13 - 1 from rfl, show (0x7 : Nat) = 2 ^ 3 - 1 from rfl,
    Nat.testBit_mod_two_pow, Nat.testBit_or, Nat.testBit_and, Nat.testBit_shiftLeft,
    Nat.testBit_two_pow_sub_one]
  rw [Bool.eq_iff_iff]
  cases w.testBit i <;> cases v.testBit (i - 13) <;>
    simp only [Bool.and_eq_true, Bool.or_eq_true, decide_eq_true_eq, Bool.false_eq_true,
      ge_iff_le, true_and, and_true, false_and, and_false, or_false, false_or, iff_false,
      false_iff, iff_true, true_iff, not_false_eq_true] <;> omega

theorem flags_word_top (w v : Nat) :
    ((w &&& 0x1FFF) ||| ((v &&& 0x7) <<< 13)) >>> 13 = v &&& 0x7 := by
  apply Nat.eq_of_testBit_eq; intro i
  simp only [show (0x1FFF : Nat) = 2 ^ 13 - 1 from rfl, show (0x7 : Nat) = 2 ^ 3 - 1 from rfl,
    Nat.testBit_shiftRight, Nat.testBit_or, Nat.testBit_and, Nat.testBit_shiftLeft,
    Nat.testBit_two_pow_sub_one, Nat.add_sub_cancel_left]
  rw [Bool.eq_iff_iff]
  cases w.testBit (13 + i) <;> cases v.testBit i <;>
    simp only [Bool.and_eq_true, Bool.or_eq_true, decide_eq_true_eq, Bool.false_eq_true,
      ge_iff_le, true_and, and_true, false_and, and_false, or_false, false_or, iff_false,
      false_iff, iff_true, true_iff, not_false_eq_true] <;> omega

theorem flags_word_low (w v : Nat) :
    ((w &&& 0x1FFF) ||| ((v &&& 0x7) <<< 13)) &&& 0x1FFF = w &&& 0x1FFF := by
  apply Nat.eq_of_testBit_eq; intro i
  simp only [show (0x1FFF : Nat) = 2 ^ 13 - 1 from rfl, show (0x7 : Nat) = 2 ^ 3 - 1 from rfl,
    Nat.testBit_or, Nat.testBit_and, Nat.testBit_shiftLeft, Nat.testBit_two_pow_sub_one]
  rw [Bool.eq_iff_iff]
  cases w.testBit i <;> cases v.testBit (i - 13) <;>
    simp only [Bool.and_eq_true, Bool.or_eq_true, decide_eq_true_eq, Bool.false_eq_true,
      ge_iff_le, true_and, and_true, false_and, and_false, or_false, false_or, iff_false,
      false_iff, iff_true, true_iff, not_false_eq_true] <;> omega

/-- C7: `IP_set_flags` writes the 3-bit flags field.  For every header with prior
flags/offset word `w` and every argument `v`, the new word is
`(w & 0x1FFF) | ((v & 7) << 13)`: its top three bits are `v & 7` (wider inputs are
truncated by the 16-bit store of `v << 13`) and its low 13 bits are those of `w`.
On a word of 0, `v = 2` gives `0x4000`. -/
theorem IP_set_flags_writes_top_three_bits (h : IP_Header_t) (v : Nat) :
    (IP_set_flags h v).flags_n_offset =
      (h.flags_n_offset &&& 0x1FFF) ||| ((v &&& 0x7) <<< 13) ∧
    (IP_set_flags h v).flags_n_offset >>> 13 = v &&& 0x7 ∧
    (IP_set_flags h v).flags_n_offset &&& 0x1FFF = h.flags_n_offset &&& 0x1FFF ∧
    (IP_set_flags zero_ip 2).flags_n_offset = 0x4000 := by
  have e : (IP_set_flags h v).flags_n_offset =
      (h.flags_n_offset &&& 0x1FFF) ||| ((v &&& 0x7) <<< 13) :=
    IP_set_flags_word h.flags_n_offset v
  refine ⟨e, ?_, ?_, by decide⟩
  · rw [e]; exact flags_word_top _ _
  · rw [e]; exact flags_word_low _ _

theorem IP_set_version_byte (b v : Nat) :
    ((b &&& 0x0F) % 2 ^ 8 ||| (v <<< 4) % 2 ^ 8) % 2 ^ 8 =
      (b &&& 0x0F) ||| ((v &&& 0x0F) <<< 4) := by
  apply Nat.eq_of_testBit_eq; intro i
  simp only [show (0x0F : Nat) = 2 ^ 4 - 1 from rfl,
    Nat.testBit_shiftRight, Nat.testBit_mod_two_pow, Nat.testBit_or, Nat.testBit_and,
    Nat.testBit_shiftLeft, Nat.testBit_two_pow_sub_one, Nat.add_sub_cancel_left]
  rw [Bool.eq_iff_iff]
  cases b.testBit i <;> cases v.testBit (i - 4) <;>
    simp only [Bool.and_eq_true, Bool.or_eq_true, decide_eq_true_eq, Bool.false_eq_true,
      ge_iff_le, true_and, and_true, false_and, and_false, or_false, false_or, iff_false,
      false_iff, iff_true, true_iff, not_false_eq_true] <;> omega

theorem version_byte_low (b v : Nat) :
    ((b &&& 0x0F) ||| ((v &&& 0x0F) <<< 4)) &&& 0x0F = b &&& 0x0F := by
  apply Nat.eq_of_testBit_eq; intro i
  simp only [show (0x0F : Nat) = 2 ^ 4 - 1 from rfl,
    Nat.testBit_shiftRight, Nat.testBit_mod_two_pow, Nat.testBit_or, Nat.testBit_and,
    Nat.testBit_shiftLeft, Nat.testBit_two_pow_sub_one, Nat.add_sub_cancel_left]
  rw [Bool.eq_iff_iff]
  cases b.testBit i <;> cases v.testBit (i - 4) <;>
    simp only [Bool.and_eq_true, Bool.or_eq_true, decide_eq_true_eq, Bool.false_eq_true,
      ge_iff_le, true_and, and_true, false_and, and_false, or_false, false_or, iff_false,
      false_iff, iff_true, true_iff, not_false_eq_true] <;> omega

theorem version_byte_high (b v : Nat) :
    ((b &&& 0x0F) ||| ((v &&& 0x0F) <<< 4)) >>> 4 = v &&& 0x0F := by
  apply Nat.eq_of_testBit_eq; intro i
  simp only [show (0x0F : Nat) = 2 ^ 4 - 1 from rfl,
    Nat.testBit_shiftRight, Nat.testBit_mod_two_pow, Nat.testBit_or, Nat.testBit_and,
    Nat.testBit_shiftLeft, Nat.testBit_two_pow_sub_one, Nat.add_sub_cancel_left]
  rw [Bool.eq_iff_iff]
  cases b.testBit (4 + i) <;> cases v.testBit i <;>
    simp only [Bool.and_eq_true, Bool.or_eq_true, decide_eq_true_eq, Bool.false_eq_true,
      ge_iff_le, true_and, and_true, false_and, and_false, or_false, false_or, iff_false,
      false_iff, iff_true, true_iff, not_false_eq_true] <;> omega

theorem IP_set_IHL_byte (b v : Nat) :
    ((b &&& 0xF0) % 2 ^ 8 ||| (v &&& 0x0F) % 2 ^ 8) % 2 ^ 8 =
      (b &&& 0xF0) ||| (v &&& 0x0F) := by
  apply Nat.eq_of_testBit_eq; intro i
  simp only [show (0x0F : Nat) = 2 ^ 4 - 1 from rfl, show (0xF0 : Nat) = (2 ^ 4 - 1) <<< 4 from rfl,
    Nat.testBit_shiftRight, Nat.testBit_mod_two_pow, Nat.testBit_or, Nat.testBit_and,
    Nat.testBit_shiftLeft, Nat.testBit_two_pow_sub_one, Nat.add_sub_cancel_left]
  rw [Bool.eq_iff_iff]
  cases b.testBit i <;> cases v.testBit i <;>
    simp only [Bool.and_eq_true, Bool.or_eq_true, decide_eq_true_eq, Bool.false_eq_true,
      ge_iff_le, true_and, and_true, false_and, and_false, or_false, false_or, iff_false,
      false_iff, iff_true, true_iff, not_false_eq_true] <;> omega

theorem IHL_byte_low (b v : Nat) :
    ((b &&& 0xF0) ||| (v &&& 0x0F)) &&& 0x0F = v &&& 0x0F := by
  apply Nat.eq_of_testBit_eq; intro i
  simp only [show (0x0F : Nat) = 2 ^ 4 - 1 from rfl, show (0xF0 : Nat) = (2 ^ 4 - 1) <<< 4 from rfl,
    Nat.testBit_shiftRight, Nat.testBit_mod_two_pow, Nat.testBit_or, Nat.testBit_and,
    Nat.testBit_shiftLeft, Nat.testBit_two_pow_sub_one, Nat.add_sub_cancel_left]
  rw [Bool.eq_iff_iff]
  cases b.testBit i <;> cases v.testBit i <;>
    simp only [Bool.and_eq_true, Bool.or_eq_true, decide_eq_true_eq, Bool.false_eq_true,
      ge_iff_le, true_and, and_true, false_and, and_false, or_false, false_or, iff_false,
      false_iff, iff_true, true_iff, not_false_eq_true] <;> omega

theorem IHL_byte_high (b v : Nat) :
    ((b &&& 0xF0) ||| (v &&& 0x0F)) &&& 0xF0 = b &&& 0xF0 := by
  apply Nat.eq_of_testBit_eq; intro i
  simp only [show (0x0F : Nat) = 2 ^ 4 - 1 from rfl, show (0xF0 : Nat) = (2 ^ 4 - 1) <<< 4 from rfl,
    Nat.testBit_shiftRight, Nat.testBit_mod_two_pow, Nat.testBit_or, Nat.testBit_and,
    Nat.testBit_shiftLeft, Nat.testBit_two_pow_sub_one, Nat.add_sub_cancel_left]
  rw [Bool.eq_iff_iff]
  cases b.testBit i <;> cases v.testBit i <;>
    simp only [Bool.and_eq_true, Bool.or_eq_true, decide_eq_true_eq, Bool.false_eq_true,
      ge_iff_le, true_and, and_true, false_and, and_false, or_false, false_or, iff_false,
      false_iff, iff_true, true_iff, not_false_eq_true] <;> omega

/-- C8: nibble isolation in byte 0 of the IP header.  With prior byte `b`,
`IP_set_version h v` stores `(b & 0x0F) | ((v & 0x0F) << 4)` and `IP_set_IHL h v` stores
`(b & 0xF0) | (v & 0x0F)`: each setter masks its input to four bits, replaces its own
nibble and leaves the sibling nibble unchanged. -/
theorem IP_version_IHL_nibble_isolation (h : IP_Header_t) (v : Nat) :
    (IP_set_version h v).version_n_IHL =
      (h.version_n_IHL &&& 0x0F) ||| ((v &&& 0x0F) <<< 4) ∧
    (IP_set_version h v).version_n_IHL >>> 4 = v &&& 0x0F ∧
    (IP_set_version h v).version_n_IHL &&& 0x0F = h.version_n_IHL &&& 0x0F ∧
    (IP_set_IHL h v).version_n_IHL = (h.version_n_IHL &&& 0xF0) ||| (v &&& 0x0F) ∧
    (IP_set_IHL h v).version_n_IHL &&& 0x0F = v &&& 0x0F ∧
    (IP_set_IHL h v).version_n_IHL &&& 0xF0 = h.version_n_IHL &&& 0xF0 := by
  have e1 : (IP_set_version h v).version_n_IHL =
      (h.version_n_IHL &&& 0x0F) ||| ((v &&& 0x0F) <<< 4) :=
    IP_set_version_byte h.version_n_IHL v
  have e2 : (IP_set_IHL h v).version_n_IHL = (h.version_n_IHL &&& 0xF0) ||| (v &&& 0x0F) :=
    IP_set_IHL_byte h.version_n_IHL v
  refine ⟨e1, ?_, ?_, e2, ?_, ?_⟩
  · rw [e1]; exact version_byte_high _ _
  · rw [e1]; exact version_byte_low _ _
  · rw [e2]; exact IHL_byte_low _ _
  · rw [e2]; exact IHL_byte_high _ _

theorem testBit_true_lt (x n i : Nat) (hx : x < 2 ^ n) (ht : x.testBit i = true) : i < n := by
  by_contra hc
  rw [testBit_high x n i hx (by omega)] at ht
  exact Bool.false_ne_true ht

theorem TCP_set_offset_byte (b v : Nat) (hb : b < 2 ^ 8) :
    (b ||| (v <<< 4) % 2 ^ 8) % 2 ^ 8 = b ||| ((v &&& 0x0F) <<< 4) := by
  apply Nat.eq_of_testBit_eq; intro i
  simp only [show (0x0F : Nat) = 2 ^ 4 - 1 from rfl,
    Nat.testBit_shiftRight, Nat.testBit_mod_two_pow, Nat.testBit_or, Nat.testBit_and,
    Nat.testBit_shiftLeft, Nat.testBit_two_pow_sub_one, Nat.add_sub_cancel_left]
  have hx : b.testBit i = true → i < 8 := testBit_true_lt b 8 i hb
  rw [Bool.eq_iff_iff]
  revert hx
  cases b.testBit i <;> cases v.testBit (i - 4) <;>
    simp only [Bool.and_eq_true, Bool.or_eq_true, decide_eq_true_eq, Bool.false_eq_true,
      ge_iff_le, true_and, and_true, false_and, and_false, or_false, false_or, iff_false,
      false_iff, iff_true, true_iff, not_false_eq_true, false_implies, true_implies,
      implies_true, true_or, or_true] <;> omega

theorem offset_byte_lt (b v : Nat) (hb : b < 2 ^ 8) : b ||| ((v &&& 0x0F) <<< 4) < 2 ^ 8 :=
  Nat.or_lt_two_pow hb
    (Nat.shiftLeft_lt (Nat.and_lt_two_pow v (show 0x0F < 2 ^ 4 by decide)))

theorem offset_byte_low (b v : Nat) :
    (b ||| ((v &&& 0x0F) <<< 4)) &&& 0x0F = b &&& 0x0F := by
  apply Nat.eq_of_testBit_eq; intro i
  simp only [show (0x0F : Nat) = 2 ^ 4 - 1 from rfl,
    Nat.testBit_shiftRight, Nat.testBit_mod_two_pow, Nat.testBit_or, Nat.testBit_and,
    Nat.testBit_shiftLeft, Nat.testBit_two_pow_sub_one, Nat.add_sub_cancel_left]
  rw [Bool.eq_iff_iff]
  cases b.testBit i <;> cases v.testBit (i - 4) <;>
    simp only [Bool.and_eq_true, Bool.or_eq_true, decide_eq_true_eq, Bool.false_eq_true,
      ge_iff_le, true_and, and_true, false_and, and_false, or_false, false_or, iff_false,
      false_iff, iff_true, true_iff, not_false_eq_true, false_implies, true_implies,
      implies_true, true_or, or_true]
  omega

theorem offset_byte_twice_high (b v1 v2 : Nat) :
    ((b ||| ((v1 &&& 0x0F) <<< 4)) ||| ((v2 &&& 0x0F) <<< 4)) >>> 4 =
      (b >>> 4) ||| (v1 &&& 0x0F) ||| (v2 &&& 0x0F) := by
  apply Nat.eq_of_testBit_eq; intro i
  simp only [show (0x0F : Nat) = 2 ^ 4 - 1 from rfl,
    Nat.testBit_shiftRight, Nat.testBit_mod_two_pow, Nat.testBit_or, Nat.testBit_and,
    Nat.testBit_shiftLeft, Nat.testBit_two_pow_sub_one, Nat.add_sub_cancel_left]
  rw [Bool.eq_iff_iff]
  cases b.testBit (4 + i) <;> cases v1.testBit i <;> cases v2.testBit i <;>
    simp only [Bool.and_eq_true, Bool.or_eq_true, decide_eq_true_eq, Bool.false_eq_true,
      ge_iff_le, true_and, and_true, false_and, and_false, or_false, false_or, iff_false,
      false_iff, iff_true, true_iff, not_false_eq_true, false_implies, true_implies,
      implies_true, true_or, or_true] <;> omega

/-- C9: `TCP_set_offset` accumulates by OR.  With prior byte `b` (an 8-bit value),
`TCP_set_offset t v` stores `b | ((v & 0x0F) << 4)`; the low (reserved) nibble is
unchanged; after two successive calls with `v1` then `v2` the high nibble is
`(old high nibble) | (v1 & 0x0F) | (v2 & 0x0F)`, not `v2`: on a fresh header, offsets
5 then 2 leave the high nibble 7. -/
theorem TCP_set_offset_accumulates (t : TCP_Header_t) (v1 v2 : Nat)
    (hb : t.offset_n_reserved < 2 ^ 8) :
    (TCP_set_offset t v1).offset_n_reserved =
      t.offset_n_reserved ||| ((v1 &&& 0x0F) <<< 4) ∧
    (TCP_set_offset t v1).offset_n_reserved &&& 0x0F = t.offset_n_reserved &&& 0x0F ∧
    (TCP_set_offset (TCP_set_offset t v1) v2).offset_n_reserved >>> 4 =
      (t.offset_n_reserved >>> 4) ||| (v1 &&& 0x0F) ||| (v2 &&& 0x0F) ∧
    (TCP_set_offset (TCP_set_offset zero_tcp 5) 2).offset_n_reserved >>> 4 = 7 := by
  have e1 : (TCP_set_offset t v1).offset_n_reserved =
      t.offset_n_reserved ||| ((v1 &&& 0x0F) <<< 4) :=
    TCP_set_offset_byte t.offset_n_reserved v1 hb
  have hb1 : (TCP_set_offset t v1).offset_n_reserved < 2 ^ 8 := by
    rw [e1]; exact offset_byte_lt _ _ hb
  have e2 : (TCP_set_offset (TCP_set_offset t v1) v2).offset_n_reserved =
      (TCP_set_offset t v1).offset_n_reserved ||| ((v2 &&& 0x0F) <<< 4) :=
    TCP_set_offset_byte (TCP_set_offset t v1).offset_n_reserved v2 hb1
  refine ⟨e1, ?_, ?_, by decide⟩
  · rw [e1]; exact offset_byte_low _ _
  · rw [e2, e1]; exact offset_byte_twice_high _ _ _

theorem TCP_set_offset_accumulates_witness :
    zero_tcp.offset_n_reserved < 2 ^ 8 ∧
    ((TCP_set_offset zero_tcp 5).offset_n_reserved =
      zero_tcp.offset_n_reserved ||| ((5 &&& 0x0F) <<< 4) ∧
    (TCP_set_offset zero_tcp 5).offset_n_reserved &&& 0x0F =
      zero_tcp.offset_n_reserved &&& 0x0F ∧
    (TCP_set_offset (TCP_set_offset zero_tcp 5) 2).offset_n_reserved >>> 4 =
      (zero_tcp.offset_n_reserved >>> 4) ||| (5 &&& 0x0F) ||| (2 &&& 0x0F) ∧
    (TCP_set_offset (TCP_set_offset zero_tcp 5) 2).offset_n_reserved >>> 4 = 7) :=
  ⟨by decide, TCP_set_offset_accumulates zero_tcp 5 2 (by decide)⟩

theorem TCP_set_reserved_byte (b v : Nat) (hv : v < 2 ^ 8) :
    ((b &&& 0xF0) % 2 ^ 8 ||| v) % 2 ^ 8 = (b &&& 0xF0) ||| v := by
  apply Nat.eq_of_testBit_eq; intro i
  simp only [show (0x0F : Nat) = 2 ^ 4 - 1 from rfl, show (0xF0 : Nat) = (2 ^ 4 - 1) <<< 4 from rfl,
    Nat.testBit_shiftRight, Nat.testBit_mod_two_pow, Nat.testBit_or, Nat.testBit_and,
    Nat.testBit_shiftLeft, Nat.testBit_two_pow_sub_one, Nat.add_sub_cancel_left]
  have hx : v.testBit i = true → i < 8 := testBit_true_lt v 8 i hv
  rw [Bool.eq_iff_iff]
  revert hx
  cases b.testBit i <;> cases v.testBit i <;>
    simp only [Bool.and_eq_true, Bool.or_eq_true, decide_eq_true_eq, Bool.false_eq_true,
      ge_iff_le, true_and, and_true, false_and, and_false, or_false, false_or, iff_false,
      false_iff, iff_true, true_iff, not_false_eq_true, false_implies, true_implies,
      implies_true, true_or, or_true] <;> omega

theorem reserved_byte_high (b v : Nat) :
    ((b &&& 0xF0) ||| v) &&& 0xF0 = (b &&& 0xF0) ||| (v &&& 0xF0) := by
  apply Nat.eq_of_testBit_eq; intro i
  simp only [show (0x0F : Nat) = 2 ^ 4 - 1 from rfl, show (0xF0 : Nat) = (2 ^ 4 - 1) <<< 4 from rfl,
    Nat.testBit_shiftRight, Nat.testBit_mod_two_pow, Nat.testBit_or, Nat.testBit_and,
    Nat.testBit_shiftLeft, Nat.testBit_two_pow_sub_one, Nat.add_sub_cancel_left]
  rw [Bool.eq_iff_iff]
  cases b.testBit i <;> cases v.testBit i <;>
    simp only [Bool.and_eq_true, Bool.or_eq_true, decide_eq_true_eq, Bool.false_eq_true,
      ge_iff_le, true_and, and_true, false_and, and_false, or_false, false_or, iff_false,
      false_iff, iff_true, true_iff, not_false_eq_true, false_implies, true_implies,
      implies_true, true_or, or_true] <;> omega

theorem reserved_byte_low (b v : Nat) :
    ((b &&& 0xF0) ||| v) &&& 0x0F = v &&& 0x0F := by
  apply Nat.eq_of_testBit_eq; intro i
  simp only [show (0x0F : Nat) = 2 ^ 4 - 1 from rfl, show (0xF0 : Nat) = (2 ^ 4 - 1) <<< 4 from rfl,
    Nat.testBit_shiftRight, Nat.testBit_mod_two_pow, Nat.testBit_or, Nat.testBit_and,
    Nat.testBit_shiftLeft, Nat.testBit_two_pow_sub_one, Nat.add_sub_cancel_left]
  rw [Bool.eq_iff_iff]
  cases b.testBit i <;> cases v.testBit i <;>
    simp only [Bool.and_eq_true, Bool.or_eq_true, decide_eq_true_eq, Bool.false_eq_true,
      ge_iff_le, true_and, and_true, false_and, and_false, or_false, false_or, iff_false,
      false_iff, iff_true, true_iff, not_false_eq_true, false_implies, true_implies,
      implies_true, true_or, or_true]
  omega

/-- C10: `TCP_set_reserved` does not mask its input.  With prior byte `b` and an 8-bit
argument `v`, `TCP_set_reserved t v` stores `(b & 0xF0) | v`: the bits of `v` above
bit 3 are OR-ed into the offset nibble, and the low nibble becomes exactly `v & 0x0F`
(the previous reserved bits are cleared).  On a fresh header, `TCP_set_offset 5` then
`TCP_set_reserved 0xF0` leaves the byte `0xF0`, not `0x50`. -/
theorem TCP_set_reserved_unmasked (t : TCP_Header_t) (v : Nat) (hv : v < 2 ^ 8) :
    (TCP_set_reserved t v).offset_n_reserved = (t.offset_n_reserved &&& 0xF0) ||| v ∧
    (TCP_set_reserved t v).offset_n_reserved &&& 0xF0 =
      (t.offset_n_reserved &&& 0xF0) ||| (v &&& 0xF0) ∧
    (TCP_set_reserved t v).offset_n_reserved &&& 0x0F = v &&& 0x0F ∧
    (TCP_set_reserved (TCP_set_offset zero_tcp 5) 0xF0).offset_n_reserved = 0xF0 ∧
    (TCP_set_offset zero_tcp 5).offset_n_reserved = 0x50 := by
  have e : (TCP_set_reserved t v).offset_n_reserved = (t.offset_n_reserved &&& 0xF0) ||| v :=
    TCP_set_reserved_byte t.offset_n_reserved v hv
  refine ⟨e, ?_, ?_, by decide, by decide⟩
  · rw [e]; exact reserved_byte_high _ _
  · rw [e]; exact reserved_byte_low _ _

theorem TCP_set_reserved_unmasked_witness :
    0xF0 < 2 ^ 8 ∧
    ((TCP_set_reserved (TCP_set_offset zero_tcp 5) 0xF0).offset_n_reserved =
      ((TCP_set_offset zero_tcp 5).offset_n_reserved &&& 0xF0) ||| 0xF0 ∧
    (TCP_set_reserved (TCP_set_offset zero_tcp 5) 0xF0).offset_n_reserved &&& 0xF0 =
      ((TCP_set_offset zero_tcp 5).offset_n_reserved &&& 0xF0) ||| (0xF0 &&& 0xF0) ∧
    (TCP_set_reserved (TCP_set_offset zero_tcp 5) 0xF0).offset_n_reserved &&& 0x0F =
      0xF0 &&& 0x0F ∧
    (TCP_set_reserved (TCP_set_offset zero_tcp 5) 0xF0).offset_n_reserved = 0xF0 ∧
    (TCP_set_offset zero_tcp 5).offset_n_reserved = 0x50) :=
  ⟨by decide, TCP_set_reserved_unmasked (TCP_set_offset zero_tcp 5) 0xF0 (by decide)⟩

theorem IP_set_offset_word (w v : Nat) :
    ((w &&& 0xE0FF) % 2 ^ 16 ||| (v &&& 0x1FFF) % 2 ^ 16) % 2 ^ 16 =
      (w &&& 0xE0FF) ||| (v &&& 0x1FFF) := by
  have h1 : w &&& 0xE0FF < 2 ^ 16 := Nat.and_lt_two_pow w (by decide)
  have h2 : v &&& 0x1FFF < 2 ^ 16 := Nat.and_lt_two_pow v (by decide)
  rw [Nat.mod_eq_of_lt h1, Nat.mod_eq_of_lt h2, Nat.mod_eq_of_lt (Nat.or_lt_two_pow h1 h2)]

theorem offset_word_top (w v : Nat) :
    ((w &&& 0xE0FF) ||| (v &&& 0x1FFF)) >>> 13 = (w % 2 ^ 16) >>> 13 := by
  apply Nat.eq_of_testBit_eq; intro i
  simp only [show (0xE0FF : Nat) = ((2 ^ 3 - 1) <<< 13) ||| (2 ^ 8 - 1) from rfl,
    show (0x1FFF : Nat) = 2 ^ 13 - 1 from rfl,
    Nat.testBit_shiftRight, Nat.testBit_mod_two_pow, Nat.testBit_or, Nat.testBit_and,
    Nat.testBit_shiftLeft, Nat.testBit_two_pow_sub_one, Nat.add_sub_cancel_left]
  rw [Bool.eq_iff_iff]
  cases w.testBit (13 + i) <;> cases v.testBit (13 + i) <;>
    simp only [Bool.and_eq_true, Bool.or_eq_true, decide_eq_true_eq, Bool.false_eq_true,
      ge_iff_le, true_and, and_true, false_and, and_false, or_false, false_or, iff_false,
      false_iff, iff_true, true_iff, not_false_eq_true, false_implies, true_implies,
      implies_true, true_or, or_true] <;> omega

/-- C6: what `IP_set_offset` does where the claim fails.  The stored word is
`(w & 0xE0FF) | (v & 0x1FFF)`: the top three bits of `w` are kept, but so is its low
byte, which is OR-ed with the new offset instead of being replaced.  On a header whose
flags/offset word is `0x00FF`, `IP_set_offset 0` leaves the low 13 bits `0x00FF`, not
`0 & 0x1FFF = 0`; the same word results from `IP_set_offset 0x00FF` followed by
`IP_set_offset 0` on a fresh header.  On the word `0x4000` with `v = 0` the result is
`0x4000`. -/
theorem IP_set_offset_keeps_old_low_byte :
    (∀ (h : IP_Header_t) (v : Nat),
      (IP_set_offset h v).flags_n_offset =
        (h.flags_n_offset &&& 0xE0FF) ||| (v &&& 0x1FFF) ∧
      (IP_set_offset h v).flags_n_offset >>> 13 = (h.flags_n_offset % 2 ^ 16) >>> 13) ∧
    (IP_set_offset { zero_ip with flags_n_offset := 0x00FF } 0).flags_n_offset &&& 0x1FFF =
      0x00FF ∧
    (0 &&& 0x1FFF : Nat) = 0 ∧
    (IP_set_offset (IP_set_offset zero_ip 0x00FF) 0).flags_n_offset &&& 0x1FFF = 0x00FF ∧
    (IP_set_offset { zero_ip with flags_n_offset := 0x4000 } 0).flags_n_offset = 0x4000 := by
  refine ⟨fun h v => ?_, by decide, by decide, by decide, by decide⟩
  have e : (IP_set_offset h v).flags_n_offset =
      (h.flags_n_offset &&& 0xE0FF) ||| (v &&& 0x1FFF) :=
    IP_set_offset_word h.flags_n_offset v
  refine ⟨e, ?_⟩
  rw [e]; exact offset_word_top _ _

/-! ## Field isolation scenario -/

/-- C11 as stated fails: from a zero flags/offset word, `IP_set_flags 3` then
`IP_set_offset 0x1FFF` does not leave `0xFFFF`. -/
theorem IP_flags3_offset_not_ffff :
    ¬ ((IP_set_offset (IP_set_flags zero_ip 3) 0x1FFF).flags_n_offset = 0xFFFF) := by
  decide

/-- C11 (amended): starting from an IP header whose flags/offset word is 0,
`IP_set_flags 3` and then `IP_set_offset 0x1FFF` leave the word equal to `0x7FFF`
(`3 << 13 = 0x6000` occupies bits 13 and 14 only). -/
theorem IP_flags3_offset_word (h : IP_Header_t) (h0 : h.flags_n_offset = 0) :
    (IP_set_offset (IP_set_flags h 3) 0x1FFF).flags_n_offset = 0x7FFF := by
  simp only [IP_set_offset, IP_set_flags, h0]
  decide

theorem IP_flags3_offset_word_witness :
    zero_ip.flags_n_offset = 0 ∧
    (IP_set_offset (IP_set_flags zero_ip 3) 0x1FFF).flags_n_offset = 0x7FFF :=
  ⟨rfl, IP_flags3_offset_word zero_ip rfl⟩

/-! ## Byte-order converter: fields and bytes -/

/-- C12: with `htons`/`htonl` the 16-bit and 32-bit byte reversals of a little-endian host,
`hton_ip` replaces exactly `total_length`, `id`, `flags_n_offset`, `checksum` by their
16-bit swaps and `src_address`, `dst_address` by their 32-bit reversals, leaving
`version_n_IHL`, `type_of_service`, `time_to_live`, `protocol` unchanged; `hton_tcp`
replaces exactly `src_port`, `dst_port`, `window`, `checksum`, `urgent_ptr` (16-bit) and
`sequence_num`, `ack_num` (32-bit), leaving `offset_n_reserved` and `control_bits`
unchanged.  The little-endian in-memory bytes of every converted field are the
big-endian bytes of its original value. -/
theorem hton_field_set (ip : IP_Header_t) (tcp : TCP_Header_t) :
    hton_ip ip =
      { version_n_IHL := ip.version_n_IHL, type_of_service := ip.type_of_service,
        total_length := htons ip.total_length, id := htons ip.id,
        flags_n_offset := htons ip.flags_n_offset, time_to_live := ip.time_to_live,
        protocol := ip.protocol, checksum := htons ip.checksum,
        src_address := htonl ip.src_address, dst_address := htonl ip.dst_address } ∧
    hton_tcp tcp =
      { src_port := htons tcp.src_port, dst_port := htons tcp.dst_port,
        sequence_num := htonl tcp.sequence_num, ack_num := htonl tcp.ack_num,
        offset_n_reserved := tcp.offset_n_reserved, control_bits := tcp.control_bits,
        window := htons tcp.window, checksum := htons tcp.checksum,
        urgent_ptr := htons tcp.urgent_ptr } ∧
    (le_bytes16 (hton_ip ip).total_length = be_bytes16 ip.total_length ∧
      le_bytes16 (hton_ip ip).id = be_bytes16 ip.id ∧
      le_bytes16 (hton_ip ip).flags_n_offset = be_bytes16 ip.flags_n_offset ∧
      le_bytes16 (hton_ip ip).checksum = be_bytes16 ip.checksum ∧
      le_bytes32 (hton_ip ip).src_address = be_bytes32 ip.src_address ∧
      le_bytes32 (hton_ip ip).dst_address = be_bytes32 ip.dst_address) ∧
    (le_bytes16 (hton_tcp tcp).src_port = be_bytes16 tcp.src_port ∧
      le_bytes16 (hton_tcp tcp).dst_port = be_bytes16 tcp.dst_port ∧
      le_bytes32 (hton_tcp tcp).sequence_num = be_bytes32 tcp.sequence_num ∧
      le_bytes32 (hton_tcp tcp).ack_num = be_bytes32 tcp.ack_num ∧
      le_bytes16 (hton_tcp tcp).window = be_bytes16 tcp.window ∧
      le_bytes16 (hton_tcp tcp).checksum = be_bytes16 tcp.checksum ∧
      le_bytes16 (hton_tcp tcp).urgent_ptr = be_bytes16 tcp.urgent_ptr) := by
  refine ⟨rfl, rfl, ?_, ?_⟩
  · exact ⟨le_bytes16_htons _, le_bytes16_htons _, le_bytes16_htons _, le_bytes16_htons _,
      le_bytes32_htonl _, le_bytes32_htonl _⟩
  · exact ⟨le_bytes16_htons _, le_bytes16_htons _, le_bytes32_htonl _, le_bytes32_htonl _,
      le_bytes16_htons _, le_bytes16_htons _, le_bytes16_htons _⟩

/-! ## Byte-order round trip -/

theorem htons_bytes (x : Nat) :
    htons x % 2 ^ 8 = x / 2 ^ 8 % 2 ^ 8 ∧ htons x / 2 ^ 8 % 2 ^ 8 = x % 2 ^ 8 :=
  bytes2 (x % 2 ^ 8) (x / 2 ^ 8 % 2 ^ 8) (Nat.mod_lt _ (by decide)) (Nat.mod_lt _ (by decide))

theorem htonl_bytes (x : Nat) :
    htonl x % 2 ^ 8 = x / 2 ^ 24 % 2 ^ 8 ∧ htonl x / 2 ^ 8 % 2 ^ 8 = x / 2 ^ 16 % 2 ^ 8 ∧
    htonl x / 2 ^ 16 % 2 ^ 8 = x / 2 ^ 8 % 2 ^ 8 ∧ htonl x / 2 ^ 24 % 2 ^ 8 = x % 2 ^ 8 :=
  bytes4 (x % 2 ^ 8) (x / 2 ^ 8 % 2 ^ 8) (x / 2 ^ 16 % 2 ^ 8) (x / 2 ^ 24 % 2 ^ 8)
    (Nat.mod_lt _ (by decide)) (Nat.mod_lt _ (by decide)) (Nat.mod_lt _ (by decide))
    (Nat.mod_lt _ (by decide))

theorem htons_htons (x : Nat) (hx : x < 2 ^ 16) : htons (htons x) = x := by
  have e : htons (htons x) = (htons x % 2 ^ 8) * 2 ^ 8 + htons x / 2 ^ 8 % 2 ^ 8 := rfl
  rw [e, (htons_bytes x).1, (htons_bytes x).2]
  omega

theorem htonl_htonl (x : Nat) (hx : x < 2 ^ 32) : htonl (htonl x) = x := by
  have e : htonl (htonl x) = (htonl x % 2 ^ 8) * 2 ^ 24 + (htonl x / 2 ^ 8 % 2 ^ 8) * 2 ^ 16 +
      (htonl x / 2 ^ 16 % 2 ^ 8) * 2 ^ 8 + htonl x / 2 ^ 24 % 2 ^ 8 := rfl
  rw [e, (htonl_bytes x).1, (htonl_bytes x).2.1, (htonl_bytes x).2.2.1, (htonl_bytes x).2.2.2]
  omega

theorem hton_ip_hton_ip (h : IP_Header_t) (hwf : h.wf) : hton_ip (hton_ip h) = h := by
  obtain ⟨_, _, h3, h4, h5, _, _, h8, h9, h10⟩ := hwf
  cases h
  simp only [hton_ip, IP_Header_t.mk.injEq, true_and, and_true] at *
  exact ⟨htons_htons _ h3, htons_htons _ h4, htons_htons _ h5, htons_htons _ h8,
    htonl_htonl _ h9, htonl_htonl _ h10⟩

theorem hton_tcp_hton_tcp (t : TCP_Header_t) (hwf : t.wf) : hton_tcp (hton_tcp t) = t := by
  obtain ⟨t1, t2, t3, t4, _, _, t7, t8, t9⟩ := hwf
  cases t
  simp only [hton_tcp, TCP_Header_t.mk.injEq, true_and, and_true] at *
  exact ⟨htons_htons _ t1, htons_htons _ t2, htonl_htonl _ t3, htonl_htonl _ t4,
    htons_htons _ t7, htons_htons _ t8, htons_htons _ t9⟩

theorem TCP_update_checksum_wf (t : TCP_Header_t) (p : IP_Header_t) (ht : t.wf) :
    (TCP_update_checksum t p).wf := by
  have hc := TCP_update_checksum_checksum t p ht
  obtain ⟨t1, t2, t3, t4, t5, t6, t7, _, t9⟩ := ht
  refine ⟨t1, t2, t3, t4, t5, t6, t7, ?_, t9⟩
  rw [hc]
  omega

/-- C13: byte-order round trip.  For every IP header `h` and TCP header `t`, converting
twice (the inverse swap `ntohs`/`ntohl` is the same byte reversal on a little-endian
host) reproduces the header: `hton_ip (hton_ip h) = h` and
`hton_tcp (hton_tcp t) = t`, in particular after the checksums have been computed.  The
converters are involutions, not idempotent: when `total_length = 0x003c`, converting
twice differs from converting once. -/
theorem hton_round_trip (h : IP_Header_t) (t : TCP_Header_t) (hwf : h.wf) (twf : t.wf) :
    hton_ip (hton_ip h) = h ∧
    hton_tcp (hton_tcp t) = t ∧
    hton_ip (hton_ip (IP_update_checksum h)) = IP_update_checksum h ∧
    hton_tcp (hton_tcp (TCP_update_checksum t h)) = TCP_update_checksum t h ∧
    (h.total_length = 0x003c → hton_ip (hton_ip h) ≠ hton_ip h) := by
  refine ⟨hton_ip_hton_ip h hwf, hton_tcp_hton_tcp t twf,
    hton_ip_hton_ip _ (IP_update_checksum_wf h hwf),
    hton_tcp_hton_tcp _ (TCP_update_checksum_wf t h twf), ?_⟩
  intro hlen hEq
  rw [hton_ip_hton_ip h hwf] at hEq
  have hfield : h.total_length = (hton_ip h).total_length := congrArg IP_Header_t.total_length hEq
  have hswap : (hton_ip h).total_length = htons h.total_length := rfl
  rw [hswap, hlen] at hfield
  exact absurd hfield (by decide)

theorem hton_round_trip_scenario :
    (scenario_ip.wf ∧ scenario_tcp.wf) ∧
    (hton_ip (hton_ip scenario_ip) = scenario_ip ∧
    hton_tcp (hton_tcp scenario_tcp) = scenario_tcp ∧
    hton_ip (hton_ip (IP_update_checksum scenario_ip)) = IP_update_checksum scenario_ip ∧
    hton_tcp (hton_tcp (TCP_update_checksum scenario_tcp scenario_ip)) =
      TCP_update_checksum scenario_tcp scenario_ip ∧
    (scenario_ip.total_length = 0x003c →
      hton_ip (hton_ip scenario_ip) ≠ hton_ip scenario_ip)) :=
  ⟨⟨by decide, by decide⟩, hton_round_trip scenario_ip scenario_tcp (by decide) (by decide)⟩

/-! ## NULL guards -/

/-- C14: where the fail-fast rule holds and where it does not.  Every `IP_set_*` and
`TCP_set_*` setter, `IP_update_checksum` and `TCP_update_checksum` (for either argument)
report the invalid-reference error and terminate exactly when a header argument is
absent.  `hton_ip` and `hton_tcp` have no guard: called with an absent header they
dereference NULL and never report the error. -/
theorem null_guard_all_but_hton (ip : Option IP_Header_t) (tcp : Option TCP_Header_t)
    (v : Nat) :
    ((Ptr.IP_set_version ip v).raised = true ↔ ip = none) ∧
    ((Ptr.IP_set_IHL ip v).raised = true ↔ ip = none) ∧
    ((Ptr.IP_set_type_of_service ip v).raised = true ↔ ip = none) ∧
    ((Ptr.IP_set_total_length ip v).raised = true ↔ ip = none) ∧
    ((Ptr.IP_set_id ip v).raised = true ↔ ip = none) ∧
    ((Ptr.IP_set_flags ip v).raised = true ↔ ip = none) ∧
    ((Ptr.IP_set_offset ip v).raised = true ↔ ip = none) ∧
    ((Ptr.IP_set_time_to_live ip v).raised = true ↔ ip = none) ∧
    ((Ptr.IP_set_protocol ip v).raised = true ↔ ip = none) ∧
    ((Ptr.IP_set_checksum ip v).raised = true ↔ ip = none) ∧
    ((Ptr.IP_set_src_address ip v).raised = true ↔ ip = none) ∧
    ((Ptr.IP_set_dst_address ip v).raised = true ↔ ip = none) ∧
    ((Ptr.IP_update_checksum ip).raised = true ↔ ip = none) ∧
    ((Ptr.TCP_set_src_port tcp v).raised = true ↔ tcp = none) ∧
    ((Ptr.TCP_set_dst_port tcp v).raised = true ↔ tcp = none) ∧
    ((Ptr.TCP_set_sequence_num tcp v).raised = true ↔ tcp = none) ∧
    ((Ptr.TCP_set_ack_num tcp v).raised = true ↔ tcp = none) ∧
    ((Ptr.TCP_set_offset tcp v).raised = true ↔ tcp = none) ∧
    ((Ptr.TCP_set_reserved tcp v).raised = true ↔ tcp = none) ∧
    ((Ptr.TCP_set_control_bits tcp v).raised = true ↔ tcp = none) ∧
    ((Ptr.TCP_set_window tcp v).raised = true ↔ tcp = none) ∧
    ((Ptr.TCP_set_checksum tcp v).raised = true ↔ tcp = none) ∧
    ((Ptr.TCP_set_ugent_ptr tcp v).raised = true ↔ tcp = none) ∧
    ((Ptr.TCP_update_checksum tcp ip).raised = true ↔ tcp = none ∨ ip = none) ∧
    Ptr.hton_ip none = Outcome.null_dereference ∧
    Ptr.hton_tcp none = Outcome.null_dereference ∧
    (Ptr.hton_ip none).raised = false ∧
    (Ptr.hton_tcp none).raised = false ∧
    ((Ptr.hton_ip ip).raised = false ∧ (Ptr.hton_tcp tcp).raised = false) := by
  cases ip <;> cases tcp <;>
    simp [Ptr.IP_set_version, Ptr.IP_set_IHL, Ptr.IP_set_type_of_service,
      Ptr.IP_set_total_length, Ptr.IP_set_id, Ptr.IP_set_flags, Ptr.IP_set_offset,
      Ptr.IP_set_time_to_live, Ptr.IP_set_protocol, Ptr.IP_set_checksum,
      Ptr.IP_set_src_address, Ptr.IP_set_dst_address, Ptr.IP_update_checksum,
      Ptr.TCP_set_src_port, Ptr.TCP_set_dst_port, Ptr.TCP_set_sequence_num,
      Ptr.TCP_set_ack_num, Ptr.TCP_set_offset, Ptr.TCP_set_reserved,
      Ptr.TCP_set_control_bits, Ptr.TCP_set_window, Ptr.TCP_set_checksum,
      Ptr.TCP_set_ugent_ptr, Ptr.TCP_update_checksum, Ptr.hton_ip, Ptr.hton_tcp,
      Outcome.raised]

/-! ## The checksum field is written, never read -/

theorem IP_update_checksum_congr (h1 h2 : IP_Header_t) (hagree : h1.agree_except_checksum h2) :
    IP_update_checksum h1 = IP_update_checksum h2 := by
  obtain ⟨e1, e2, e3, e4, e5, e6, e7, e8, e9⟩ := hagree
  simp only [IP_update_checksum, e1, e2, e3, e4, e5, e6, e7, e8, e9]

theorem TCP_update_checksum_congr (t1 t2 : TCP_Header_t) (p : IP_Header_t)
    (hagree : t1.agree_except_checksum t2) :
    TCP_update_checksum t1 p = TCP_update_checksum t2 p := by
  obtain ⟨e1, e2, e3, e4, e5, e6, e7, e8⟩ := hagree
  simp only [TCP_update_checksum, e1, e2, e3, e4, e5, e6, e7, e8]

theorem IP_update_checksum_agree (h : IP_Header_t) :
    (IP_update_checksum h).agree_except_checksum h :=
  ⟨rfl, rfl, rfl, rfl, rfl, rfl, rfl, rfl, rfl⟩

theorem TCP_update_checksum_agree (t : TCP_Header_t) (p : IP_Header_t) :
    (TCP_update_checksum t p).agree_except_checksum t :=
  ⟨rfl, rfl, rfl, rfl, rfl, rfl, rfl, rfl⟩

/-- C15: a prior checksum is overwritten, not included.  Two IP headers that agree on
every field except `checksum` get identical headers from `IP_update_checksum`; two TCP
headers that agree on every field except `checksum` get identical headers from
`TCP_update_checksum` with the same IP header.  Hence both operations are idempotent. -/
theorem checksum_overwritten (h1 h2 : IP_Header_t) (t1 t2 : TCP_Header_t) (p : IP_Header_t)
    (hip : h1.agree_except_checksum h2) (htcp : t1.agree_except_checksum t2) :
    IP_update_checksum h1 = IP_update_checksum h2 ∧
    TCP_update_checksum t1 p = TCP_update_checksum t2 p ∧
    IP_update_checksum (IP_update_checksum h1) = IP_update_checksum h1 ∧
    TCP_update_checksum (TCP_update_checksum t1 p) p = TCP_update_checksum t1 p :=
  ⟨IP_update_checksum_congr h1 h2 hip, TCP_update_checksum_congr t1 t2 p htcp,
    IP_update_checksum_congr _ _ (IP_update_checksum_agree h1),
    TCP_update_checksum_congr _ _ p (TCP_update_checksum_agree t1 p)⟩

theorem checksum_overwritten_scenario :
    (scenario_ip.agree_except_checksum (IP_set_checksum scenario_ip 0x1234) ∧
      scenario_tcp.agree_except_checksum (TCP_set_checksum scenario_tcp 0xBEEF)) ∧
    (IP_update_checksum scenario_ip = IP_update_checksum (IP_set_checksum scenario_ip 0x1234) ∧
    TCP_update_checksum scenario_tcp scenario_ip =
      TCP_update_checksum (TCP_set_checksum scenario_tcp 0xBEEF) scenario_ip ∧
    IP_update_checksum (IP_update_checksum scenario_ip) = IP_update_checksum scenario_ip ∧
    TCP_update_checksum (TCP_update_checksum scenario_tcp scenario_ip) scenario_ip =
      TCP_update_checksum scenario_tcp scenario_ip) :=
  ⟨⟨by decide, by decide⟩,
    checksum_overwritten scenario_ip (IP_set_checksum scenario_ip 0x1234) scenario_tcp
      (TCP_set_checksum scenario_tcp 0xBEEF) scenario_ip (by decide) (by decide)⟩

/-! ## Setters commute -/

theorem version_IHL_byte_comm (b v l : Nat) :
    ((((b &&& 0x0F) % 2 ^ 8 ||| (v <<< 4) % 2 ^ 8) % 2 ^ 8 &&& 0xF0) % 2 ^ 8 |||
        (l &&& 0x0F) % 2 ^ 8) % 2 ^ 8 =
      ((((b &&& 0xF0) % 2 ^ 8 ||| (l &&& 0x0F) % 2 ^ 8) % 2 ^ 8 &&& 0x0F) % 2 ^ 8 |||
        (v <<< 4) % 2 ^ 8) % 2 ^ 8 := by
  apply Nat.eq_of_testBit_eq; intro i
  simp only [show (0x0F : Nat) = 2 ^ 4 - 1 from rfl,
    show (0xF0 : Nat) = (2 ^ 4 - 1) <<< 4 from rfl,
    Nat.testBit_shiftRight, Nat.testBit_mod_two_pow, Nat.testBit_or, Nat.testBit_and,
    Nat.testBit_shiftLeft, Nat.testBit_two_pow_sub_one, Nat.add_sub_cancel_left]
  rw [Bool.eq_iff_iff]
  cases b.testBit i <;> cases v.testBit (i - 4) <;> cases l.testBit i <;>
    simp only [Bool.and_eq_true, Bool.or_eq_true, decide_eq_true_eq, Bool.false_eq_true,
      ge_iff_le, true_and, and_true, false_and, and_false, or_false, false_or, iff_false,
      false_iff, iff_true, true_iff, not_false_eq_true, false_implies, true_implies,
      implies_true, true_or, or_true] <;> omega

theorem flags_offset_word_comm (w f o : Nat) :
    ((((w &&& 0x1FFF) % 2 ^ 16 ||| (f <<< 13) % 2 ^ 16) % 2 ^ 16 &&& 0xE0FF) % 2 ^ 16 |||
        (o &&& 0x1FFF) % 2 ^ 16) % 2 ^ 16 =
      ((((w &&& 0xE0FF) % 2 ^ 16 ||| (o &&& 0x1FFF) % 2 ^ 16) % 2 ^ 16 &&& 0x1FFF) % 2 ^ 16 |||
        (f <<< 13) % 2 ^ 16) % 2 ^ 16 := by
  apply Nat.eq_of_testBit_eq; intro i
  simp only [show (0xE0FF : Nat) = ((2 ^ 3 - 1) <<< 13) ||| (2 ^ 8 - 1) from rfl,
    show (0x1FFF : Nat) = 2 ^ 13 - 1 from rfl,
    Nat.testBit_shiftRight, Nat.testBit_mod_two_pow, Nat.testBit_or, Nat.testBit_and,
    Nat.testBit_shiftLeft, Nat.testBit_two_pow_sub_one, Nat.add_sub_cancel_left]
  rw [Bool.eq_iff_iff]
  cases w.testBit i <;> cases f.testBit (i - 13) <;> cases o.testBit i <;>
    simp only [Bool.and_eq_true, Bool.or_eq_true, decide_eq_true_eq, Bool.false_eq_true,
      ge_iff_le, true_and, and_true, false_and, and_false, or_false, false_or, iff_false,
      false_iff, iff_true, true_iff, not_false_eq_true, false_implies, true_implies,
      implies_true, true_or, or_true] <;> omega

theorem offset_reserved_byte_comm (b o r : Nat) :
    (((b ||| (o <<< 4) % 2 ^ 8) % 2 ^ 8 &&& 0xF0) % 2 ^ 8 ||| r) % 2 ^ 8 =
      (((b &&& 0xF0) % 2 ^ 8 ||| r) % 2 ^ 8 ||| (o <<< 4) % 2 ^ 8) % 2 ^ 8 := by
  apply Nat.eq_of_testBit_eq; intro i
  simp only [show (0x0F : Nat) = 2 ^ 4 - 1 from rfl,
    show (0xF0 : Nat) = (2 ^ 4 - 1) <<< 4 from rfl,
    Nat.testBit_shiftRight, Nat.testBit_mod_two_pow, Nat.testBit_or, Nat.testBit_and,
    Nat.testBit_shiftLeft, Nat.testBit_two_pow_sub_one, Nat.add_sub_cancel_left]
  rw [Bool.eq_iff_iff]
  cases b.testBit i <;> cases o.testBit (i - 4) <;> cases r.testBit i <;>
    simp only [Bool.and_eq_true, Bool.or_eq_true, decide_eq_true_eq, Bool.false_eq_true,
      ge_iff_le, true_and, and_true, false_and, and_false, or_false, false_or, iff_false,
      false_iff, iff_true, true_iff, not_false_eq_true, false_implies, true_implies,
      implies_true, true_or, or_true] <;> omega

theorem IP_set_version_IHL_comm (h : IP_Header_t) (v l : Nat) :
    IP_set_IHL (IP_set_version h v) l = IP_set_version (IP_set_IHL h l) v := by
  cases h
  simp only [IP_set_IHL, IP_set_version, IP_Header_t.mk.injEq, and_true, true_and]
  exact version_IHL_byte_comm _ v l

theorem IP_set_flags_offset_comm (h : IP_Header_t) (f o : Nat) :
    IP_set_offset (IP_set_flags h f) o = IP_set_flags (IP_set_offset h o) f := by
  cases h
  simp only [IP_set_offset, IP_set_flags, IP_Header_t.mk.injEq, and_true, true_and]
  exact flags_offset_word_comm _ f o

theorem TCP_set_offset_reserved_comm (t : TCP_Header_t) (o r : Nat) :
    TCP_set_reserved (TCP_set_offset t o) r = TCP_set_offset (TCP_set_reserved t r) o := by
  cases t
  simp only [TCP_set_reserved, TCP_set_offset, TCP_Header_t.mk.injEq, and_true, true_and]
  exact offset_reserved_byte_comm _ o r

theorem IP_Setter_comm (h : IP_Header_t) (a b : IP_Setter) (hne : a.field ≠ b.field) :
    a.apply (b.apply h) = b.apply (a.apply h) := by
  cases a <;> cases b <;>
    first
    | exact absurd rfl hne
    | rfl
    | exact IP_set_version_IHL_comm h _ _
    | exact (IP_set_version_IHL_comm h _ _).symm
    | exact IP_set_flags_offset_comm h _ _
    | exact (IP_set_flags_offset_comm h _ _).symm

theorem TCP_Setter_comm (t : TCP_Header_t) (a b : TCP_Setter) (hne : a.field ≠ b.field) :
    a.apply (b.apply t) = b.apply (a.apply t) := by
  cases a <;> cases b <;>
    first
    | exact absurd rfl hne
    | rfl
    | exact TCP_set_offset_reserved_comm t _ _
    | exact (TCP_set_offset_reserved_comm t _ _).symm

/-- C16: setters may be called in any order.  For every IP header and every TCP header,
any two setter calls that target different fields commute, whatever their arguments.
This includes the pairs that share a byte or word: `IP_set_version` with `IP_set_IHL`,
`IP_set_flags` with `IP_set_offset`, and `TCP_set_offset` with `TCP_set_reserved` (also
when the reserved argument has bits above bit 3). -/
theorem setters_commute (h : IP_Header_t) (t : TCP_Header_t) (a b : IP_Setter)
    (c d : TCP_Setter) (hab : a.field ≠ b.field) (hcd : c.field ≠ d.field) (v w : Nat) :
    a.apply (b.apply h) = b.apply (a.apply h) ∧
    c.apply (d.apply t) = d.apply (c.apply t) ∧
    IP_set_IHL (IP_set_version h v) w = IP_set_version (IP_set_IHL h w) v ∧
    IP_set_offset (IP_set_flags h v) w = IP_set_flags (IP_set_offset h w) v ∧
    TCP_set_reserved (TCP_set_offset t v) w = TCP_set_offset (TCP_set_reserved t w) v :=
  ⟨IP_Setter_comm h a b hab, TCP_Setter_comm t c d hcd, IP_set_version_IHL_comm h v w,
    IP_set_flags_offset_comm h v w, TCP_set_offset_reserved_comm t v w⟩

theorem setters_commute_scenario :
    ((IP_Setter.flags 2).field ≠ (IP_Setter.offset 0x1234).field ∧
      (TCP_Setter.offset 5).field ≠ (TCP_Setter.reserved 0xF3).field) ∧
    ((IP_Setter.flags 2).apply ((IP_Setter.offset 0x1234).apply scenario_ip) =
      (IP_Setter.offset 0x1234).apply ((IP_Setter.flags 2).apply scenario_ip) ∧
    (TCP_Setter.offset 5).apply ((TCP_Setter.reserved 0xF3).apply scenario_tcp) =
      (TCP_Setter.reserved 0xF3).apply ((TCP_Setter.offset 5).apply scenario_tcp) ∧
    IP_set_IHL (IP_set_version scenario_ip 6) 0xFF =
      IP_set_version (IP_set_IHL scenario_ip 0xFF) 6 ∧
    IP_set_offset (IP_set_flags scenario_ip 6) 0xFF =
      IP_set_flags (IP_set_offset scenario_ip 0xFF) 6 ∧
    TCP_set_reserved (TCP_set_offset scenario_tcp 6) 0xFF =
      TCP_set_offset (TCP_set_reserved scenario_tcp 0xFF) 6) :=
  ⟨⟨by decide, by decide⟩,
    setters_commute scenario_ip scenario_tcp (IP_Setter.flags 2) (IP_Setter.offset 0x1234)
      (TCP_Setter.offset 5) (TCP_Setter.reserved 0xF3) (by decide) (by decide) 6 0xFF⟩

/-! ## Checksum and conversion do not commute -/

/-- C17: checksum computation and byte-order conversion do not commute.  On a
little-endian host, for the scenario header (a well-formed header), computing the
checksum after `hton_ip` stores `0x6830` whereas converting after `IP_update_checksum`
stores `0xE6B1`; the header converted first does not carry a valid checksum on the
wire. -/
theorem checksum_conversion_order_matters :
    (∃ h : IP_Header_t, h.wf ∧
      (IP_update_checksum (hton_ip h)).checksum ≠ (hton_ip (IP_update_checksum h)).checksum) ∧
    (IP_update_checksum (hton_ip scenario_ip)).checksum = 0x6830 ∧
    (hton_ip (IP_update_checksum scenario_ip)).checksum = 0xE6B1 ∧
    checksum_fold (be_words (IP_bytes (IP_update_checksum (hton_ip scenario_ip)))) ≠ 0xFFFF :=
  ⟨⟨scenario_ip, by decide, by decide⟩, by decide, by decide, by decide⟩

/-! ## Frame of the checksum operations -/

theorem TCP_update_checksum_pseudo (t : TCP_Header_t) (p1 p2 : IP_Header_t)
    (hproto : p1.protocol = p2.protocol) (hsrc : p1.src_address = p2.src_address)
    (hdst : p1.dst_address = p2.dst_address) :
    TCP_update_checksum t p1 = TCP_update_checksum t p2 := by
  simp only [TCP_update_checksum, hproto, hsrc, hdst]

/-- C18: frame and dependency of the checksum operations.  `IP_update_checksum` changes
no field of the IP header other than `checksum`; `TCP_update_checksum` changes no field
of the TCP header other than `checksum` and leaves the IP header unchanged; its result
depends on the IP header only through `protocol`, `src_address` and `dst_address`. -/
theorem checksum_frame (h : IP_Header_t) (t : TCP_Header_t) (p1 p2 : IP_Header_t)
    (hproto : p1.protocol = p2.protocol) (hsrc : p1.src_address = p2.src_address)
    (hdst : p1.dst_address = p2.dst_address) :
    (IP_update_checksum h).agree_except_checksum h ∧
    (TCP_update_checksum t p1).agree_except_checksum t ∧
    Ptr.TCP_update_checksum (some t) (some p1) =
      Outcome.returned (TCP_update_checksum t p1, p1) ∧
    TCP_update_checksum t p1 = TCP_update_checksum t p2 :=
  ⟨IP_update_checksum_agree h, TCP_update_checksum_agree t p1, rfl,
    TCP_update_checksum_pseudo t p1 p2 hproto hsrc hdst⟩

theorem checksum_frame_scenario :
    (scenario_ip.protocol = (IP_set_id (IP_set_time_to_live scenario_ip 1) 0xABCD).protocol ∧
      scenario_ip.src_address =
        (IP_set_id (IP_set_time_to_live scenario_ip 1) 0xABCD).src_address ∧
      scenario_ip.dst_address =
        (IP_set_id (IP_set_time_to_live scenario_ip 1) 0xABCD).dst_address) ∧
    ((IP_update_checksum scenario_ip).agree_except_checksum scenario_ip ∧
    (TCP_update_checksum scenario_tcp scenario_ip).agree_except_checksum scenario_tcp ∧
    Ptr.TCP_update_checksum (some scenario_tcp) (some scenario_ip) =
      Outcome.returned (TCP_update_checksum scenario_tcp scenario_ip, scenario_ip) ∧
    TCP_update_checksum scenario_tcp scenario_ip =
      TCP_update_checksum scenario_tcp
        (IP_set_id (IP_set_time_to_live scenario_ip 1) 0xABCD)) :=
  ⟨⟨rfl, rfl, rfl⟩,
    checksum_frame scenario_ip scenario_tcp scenario_ip
      (IP_set_id (IP_set_time_to_live scenario_ip 1) 0xABCD) rfl rfl rfl⟩

/-! ## Associativity and order independence -/

theorem add_assoc_of_lt (a b c : Nat) (ha : a < 2 ^ 16) (hb : b < 2 ^ 16)
    (hc : c < 2 ^ 16) :
    ones_complement_add (ones_complement_add a b) c =
      ones_complement_add a (ones_complement_add b c) := by
  have l1 := ones_complement_add_lt a b
  have l2 := ones_complement_add_lt b c
  have m1 := ones_complement_add_mod a b ha hb
  have m2 := ones_complement_add_mod b c hb hc
  have z1 := ones_complement_add_eq_zero a b ha hb
  have z2 := ones_complement_add_eq_zero b c hb hc
  have l3 := ones_complement_add_lt (ones_complement_add a b) c
  have l4 := ones_complement_add_lt a (ones_complement_add b c)
  have m3 := ones_complement_add_mod (ones_complement_add a b) c l1 hc
  have m4 := ones_complement_add_mod a (ones_complement_add b c) ha l2
  have z3 := ones_complement_add_eq_zero (ones_complement_add a b) c l1 hc
  have z4 := ones_complement_add_eq_zero a (ones_complement_add b c) ha l2
  omega

/-- Two lists of 16-bit words with the same plain sum fold to the same value. -/
theorem checksum_fold_eq_of_sum_eq (ws ws' : List Nat) (hws : ∀ w ∈ ws, w < 2 ^ 16)
    (hws' : ∀ w ∈ ws', w < 2 ^ 16) (hsum : ws.sum = ws'.sum) :
    checksum_fold ws = checksum_fold ws' := by
  have l1 := checksum_fold_lt ws
  have l2 := checksum_fold_lt ws'
  have m1 : checksum_fold ws % 65535 = (0 + ws.sum) % 65535 :=
    foldl_ones_complement_add_mod ws hws 0 (by decide)
  have m2 : checksum_fold ws' % 65535 = (0 + ws'.sum) % 65535 :=
    foldl_ones_complement_add_mod ws' hws' 0 (by decide)
  have z1 : checksum_fold ws = 0 ↔ 0 + ws.sum = 0 :=
    foldl_ones_complement_add_eq_zero ws hws 0 (by decide)
  have z2 : checksum_fold ws' = 0 ↔ 0 + ws'.sum = 0 :=
    foldl_ones_complement_add_eq_zero ws' hws' 0 (by decide)
  omega

/-- Folding any rearrangement of a list of 16-bit words gives the same value. -/
theorem checksum_fold_perm (ws ws' : List Nat) (hws : ∀ w ∈ ws, w < 2 ^ 16)
    (hperm : ws.Perm ws') : checksum_fold ws = checksum_fold ws' :=
  checksum_fold_eq_of_sum_eq ws ws' hws (fun w hw => hws w (hperm.mem_iff.2 hw))
    hperm.sum_eq

theorem checksum_fold_IP_wire_summed (h : IP_Header_t) (hwf : h.wf) :
    checksum_fold (IP_summed h) = checksum_fold (IP_wire_summed h) := by
  have hsummed := IP_summed_lt h hwf
  apply checksum_fold_eq_of_sum_eq _ _ hsummed
  · intro w hw; apply hsummed
    simp only [IP_summed, IP_wire_summed, List.mem_cons, List.mem_singleton,
      List.mem_nil_iff, or_false] at hw ⊢
    tauto
  · simp only [IP_summed, IP_wire_summed, List.sum_cons, List.sum_nil]
    omega

theorem checksum_fold_TCP_wire_summed (t : TCP_Header_t) (p : IP_Header_t) (ht : t.wf)
    (hp : p.wf) : checksum_fold (TCP_summed t p) = checksum_fold (TCP_wire_summed t p) := by
  have hsummed := TCP_summed_lt t p ht hp
  apply checksum_fold_eq_of_sum_eq _ _ hsummed
  · intro w hw; apply hsummed
    simp only [TCP_summed, TCP_wire_summed, List.mem_cons, List.mem_singleton,
      List.mem_nil_iff, or_false] at hw ⊢
    tauto
  · simp only [TCP_summed, TCP_wire_summed, List.sum_cons, List.sum_nil]
    omega

/-- C19: the checksum primitive is associative on 16-bit values.  With commutativity
this makes the fold of a list of 16-bit words independent of their order, so the
checksums stored by `IP_update_checksum` and `TCP_update_checksum` (which take each
low half before its high half) equal the complement of the fold in wire order. -/
theorem ones_complement_add_assoc (a b c : Nat) (ha : a < 2 ^ 16) (hb : b < 2 ^ 16)
    (hc : c < 2 ^ 16) (ws ws' : List Nat) (hws : ∀ w ∈ ws, w < 2 ^ 16)
    (hperm : ws.Perm ws') (h : IP_Header_t) (t : TCP_Header_t) (hwf : h.wf) (twf : t.wf) :
    ones_complement_add (ones_complement_add a b) c =
      ones_complement_add a (ones_complement_add b c) ∧
    checksum_fold ws = checksum_fold ws' ∧
    (IP_update_checksum h).checksum = 65535 - checksum_fold (IP_wire_summed h) ∧
    (TCP_update_checksum t h).checksum = 65535 - checksum_fold (TCP_wire_summed t h) := by
  refine ⟨add_assoc_of_lt a b c ha hb hc, checksum_fold_perm ws ws' hws hperm,
    ?_, ?_⟩
  · rw [IP_update_checksum_checksum h hwf, checksum_fold_IP_wire_summed h hwf]
  · rw [TCP_update_checksum_checksum t h twf, checksum_fold_TCP_wire_summed t h twf hwf]

theorem ones_complement_add_assoc_witness :
    ((0xFFFF < 2 ^ 16 ∧ 0x8001 < 2 ^ 16 ∧ 0x7FFF < 2 ^ 16) ∧
      (∀ w ∈ [0xFFFF, 0x8001, 0x7FFF], w < 2 ^ 16) ∧
      [0xFFFF, 0x8001, 0x7FFF].Perm [0x7FFF, 0xFFFF, 0x8001] ∧
      scenario_ip.wf ∧ scenario_tcp.wf) ∧
    (ones_complement_add (ones_complement_add 0xFFFF 0x8001) 0x7FFF =
      ones_complement_add 0xFFFF (ones_complement_add 0x8001 0x7FFF) ∧
    checksum_fold [0xFFFF, 0x8001, 0x7FFF] = checksum_fold [0x7FFF, 0xFFFF, 0x8001] ∧
    (IP_update_checksum scenario_ip).checksum =
      65535 - checksum_fold (IP_wire_summed scenario_ip) ∧
    (TCP_update_checksum scenario_tcp scenario_ip).checksum =
      65535 - checksum_fold (TCP_wire_summed scenario_tcp scenario_ip)) :=
  ⟨⟨⟨by decide, by decide, by decide⟩, by decide, by decide, by decide, by decide⟩,
    ones_complement_add_assoc 0xFFFF 0x8001 0x7FFF (by decide) (by decide) (by decide)
      [0xFFFF, 0x8001, 0x7FFF] [0x7FFF, 0xFFFF, 0x8001] (by decide) (by decide)
      scenario_ip scenario_tcp (by decide) (by decide)⟩

/-! ## Identity elements -/

/-- C20: on 16-bit values, 0 is a two-sided identity of `ones_complement_add`, whereas
`0xFFFF` is not an identity: adding `0xFFFF` returns `a` for every `a` other than 0, but
`ones_complement_add 0 0xFFFF = 0xFFFF`. -/
theorem ones_complement_add_identity (a : Nat) (ha : a < 2 ^ 16) :
    ones_complement_add a 0 = a ∧
    ones_complement_add 0 a = a ∧
    (a ≠ 0 → ones_complement_add a 0xFFFF = a) ∧
    ones_complement_add 0 0xFFFF = 0xFFFF := by
  have e1 := ones_complement_add_eq a 0 ha (by decide)
  have e2 := ones_complement_add_eq 0 a (by decide) ha
  have e3 := ones_complement_add_eq a 0xFFFF ha (by decide)
  refine ⟨?_, ?_, ?_, by decide⟩
  · omega
  · omega
  · intro hne
    omega

theorem ones_complement_add_identity_witness :
    0x1234 < 2 ^ 16 ∧
    (ones_complement_add 0x1234 0 = 0x1234 ∧
    ones_complement_add 0 0x1234 = 0x1234 ∧
    (0x1234 ≠ 0 → ones_complement_add 0x1234 0xFFFF = 0x1234) ∧
    ones_complement_add 0 0xFFFF = 0xFFFF) :=
  ⟨by decide, ones_complement_add_identity 0x1234 (by decide)⟩

end PacketInjection
